import Mathlib

/-!
# Verification development for `banzaicloud/pipeline` (selected files)

Shallow embedding of

* `cmd/worker/eks.go`                                  (`registerEKSWorkflows`)
* `internal/helm/helmadapter/releaser_service.go`      (`releaser`, `releaseDeleter`)
* `internal/providers/banzaicloud/ec2_cluster_model.go` (`BeforeDelete`)

Conventions of the embedding

* A Go `error` value is a term of the inductive type `error`; a Go result of
  type `error` (which may be `nil`) is an `Option error`, `none` being `nil`.
* `time.Duration` is an integer number of nanoseconds.
* Calls that leave the repository (Cadence runtime, Helm library, Kubernetes
  client, database) are fields of an explicit environment record and every such
  call is written to a trace or log carried in the state.
-/

/-! ## Go errors and `emperror.dev/errors` -/

/-- A Go `error` value.  `ErrReleaseNotFound` is the sentinel of
`helm.sh/helm/v3/pkg/storage/driver`; `msg` is an error made by
`errors.Errorf`/`errors.New`; `wrapped` is an error annotated with a message. -/
inductive error where
  | ErrReleaseNotFound : error
  | msg (text : String) : error
  | wrapped (cause : error) (message : String) : error
  deriving DecidableEq, Repr

namespace errors

/-- The function `errors.WrapIf(err, message)`: `nil` stays `nil`, any other error is annotated. -/
def WrapIf (err : Option error) (message : String) : Option error :=
  match err with
  | none => none
  | some e => some (error.wrapped e message)

/-- The function `errors.Wrap(err, message)`: `nil` stays `nil`, any other error is annotated. -/
def Wrap (err : Option error) (message : String) : Option error :=
  match err with
  | none => none
  | some e => some (error.wrapped e message)

/-- The function `errors.Errorf(format, args...)` with the format already expanded. -/
def Errorf (text : String) : Option error :=
  some (error.msg text)

end errors

/-! ## Package `time` -/

namespace time

/-- The type `time.Duration`: a count of nanoseconds (an `int64` in Go; the constants
used below stay far inside its range). -/
abbrev Duration := Int

def Nanosecond : Duration := 1
def Microsecond : Duration := 1000 * Nanosecond
def Millisecond : Duration := 1000 * Microsecond
def Second : Duration := 1000 * Millisecond
def Minute : Duration := 60 * Second

/-- The method `Duration.Seconds`: `float64(d / Second) + float64(d % Second) / 1e9`.
The floating-point value is represented by the rational it denotes; integer
division and remainder truncate toward zero as in Go. -/
def Duration.Seconds (d : Duration) : ℚ :=
  ((Int.tdiv d Second : Int) : ℚ) + ((Int.tmod d Second : Int) : ℚ) / 1000000000

end time

/-- Go conversion `int(x)` of a floating-point value: truncation toward zero. -/
def goInt (x : ℚ) : Int :=
  if 0 ≤ x then Rat.floor x else Rat.ceil x

/-! ## Package `eksworkflow`: what `cmd/worker/eks.go` uses of it

The package `internal/providers/amazon/eks/workflow` is not part of the
sources at hand.  Its name constants are parameters; its constructors are
represented by the record of the arguments they are called with. -/

namespace eksworkflow

/-- The name constants of the package (their string values are parameters). -/
structure Names where
  CreateClusterWorkflowName : String
  CreateInfraWorkflowName : String
  CreateVpcActivityName : String
  CreateSubnetActivityName : String
  GetSubnetsDetailsActivityName : String
  CreateIamRolesActivityName : String
  UploadSSHKeyActivityName : String
  GetVpcConfigActivityName : String
  CreateEksControlPlaneActivityName : String
  CreateAsgActivityName : String
  CreateClusterUserAccessKeyActivityName : String
  BootstrapActivityName : String
  deriving DecidableEq, Repr

/-- The two workflow functions of the package. -/
inductive Workflow where
  | CreateClusterWorkflow
  | CreateInfrastructureWorkflow
  deriving DecidableEq, Repr

/-- The session factory returned by `NewAWSSessionFactory(secretStore)`. -/
structure AWSSessionFactory (S : Type) where
  secretStore : S
  deriving DecidableEq, Repr

def NewAWSSessionFactory {S : Type} (secretStore : S) : AWSSessionFactory S :=
  { secretStore := secretStore }

/-- An activity value, as built by the `New...Activity` constructor of the same
name from exactly the arguments written in `registerEKSWorkflows`. -/
inductive Activity (S : Type) where
  | CreateVPC (awsSessionFactory : AWSSessionFactory S) (cloudFormationTemplate : String)
  | CreateSubnet (awsSessionFactory : AWSSessionFactory S) (cloudFormationTemplate : String)
  | GetSubnetsDetails (awsSessionFactory : AWSSessionFactory S)
  | CreateIamRoles (awsSessionFactory : AWSSessionFactory S) (cloudFormationTemplate : String)
  | UploadSSHKey (awsSessionFactory : AWSSessionFactory S)
  | GetVpcConfig (awsSessionFactory : AWSSessionFactory S)
  | CreateEksCluster (awsSessionFactory : AWSSessionFactory S)
  | CreateAsg (awsSessionFactory : AWSSessionFactory S) (cloudFormationTemplate : String)
      (waitAttempts : Int) (waitInterval : time.Duration)
  | CreateClusterUserAccessKey (awsSessionFactory : AWSSessionFactory S)
  | Bootstrap (awsSessionFactory : AWSSessionFactory S)
  deriving DecidableEq, Repr

/-- The session factory an activity was constructed with. -/
def Activity.sessionFactory {S : Type} : Activity S → AWSSessionFactory S
  | .CreateVPC f _ => f
  | .CreateSubnet f _ => f
  | .GetSubnetsDetails f => f
  | .CreateIamRoles f _ => f
  | .UploadSSHKey f => f
  | .GetVpcConfig f => f
  | .CreateEksCluster f => f
  | .CreateAsg f _ _ _ => f
  | .CreateClusterUserAccessKey f => f
  | .Bootstrap f => f

/-- The template an activity was constructed with, if its constructor takes one. -/
def Activity.template {S : Type} : Activity S → Option String
  | .CreateVPC _ t => some t
  | .CreateSubnet _ t => some t
  | .CreateIamRoles _ t => some t
  | .CreateAsg _ t _ _ => some t
  | _ => none

end eksworkflow

/-! ## The Cadence registry -/

/-- One call of `workflow.RegisterWithOptions` or `activity.RegisterWithOptions`:
the implementation handed over and the `Name` of the `RegisterOptions`.
For an activity the implementation is the `Execute` method of the value. -/
inductive Registration (S : Type) where
  | workflow (impl : eksworkflow.Workflow) (name : String)
  | activity (execute : eksworkflow.Activity S) (name : String)
  deriving DecidableEq, Repr

/-- The activity registered by an entry, if it is an activity entry. -/
def Registration.activity? {S : Type} : Registration S → Option (eksworkflow.Activity S)
  | .activity a _ => some a
  | .workflow _ _ => none

/-- The workflow registered by an entry, if it is a workflow entry. -/
def Registration.workflow? {S : Type} : Registration S → Option eksworkflow.Workflow
  | .workflow w _ => some w
  | .activity _ _ => none

/-! ## Package `pkgEks`: the template getters -/

/-- The results of the four template getters of `pkg/cluster/eks`
(`GetVPCTemplate`, `GetSubnetTemplate`, `GetIAMTemplate`,
`GetNodePoolTemplate`), each a Go pair `(string, error)`. -/
structure TemplateProvider where
  GetVPCTemplate : String × Option error
  GetSubnetTemplate : String × Option error
  GetIAMTemplate : String × Option error
  GetNodePoolTemplate : String × Option error
  deriving DecidableEq, Repr

/-! ## `cmd/worker/eks.go` -/

namespace worker

def asgWaitLoopSleepSeconds : Nat := 5

def asgFulfillmentTimeout : time.Duration := 2 * time.Minute

/-- The value of `waitAttempts` in `registerEKSWorkflows`:
`int(asgFulfillmentTimeout.Seconds() / asgWaitLoopSleepSeconds)`. -/
def waitAttempts : Int :=
  goInt (time.Duration.Seconds asgFulfillmentTimeout / (asgWaitLoopSleepSeconds : ℚ))

/-- The value of `waitInterval` in `registerEKSWorkflows`:
`asgWaitLoopSleepSeconds * time.Second`. -/
def waitInterval : time.Duration :=
  (asgWaitLoopSleepSeconds : Int) * time.Second

/-- The function `registerEKSWorkflows(secretStore)`.  The registry of the Cadence runtime is
passed in and out; the result is the returned `error` and the registry after
the call. -/
def registerEKSWorkflows {S : Type} (names : eksworkflow.Names) (pkgEks : TemplateProvider)
    (secretStore : S) (registry : List (Registration S)) :
    Option error × List (Registration S) :=
  match pkgEks.GetVPCTemplate with
  | (_, some err) =>
    (errors.WrapIf (some err) "failed to get CloudFormation template for VPC", registry)
  | (vpcTemplate, none) =>
  match pkgEks.GetSubnetTemplate with
  | (_, some err) =>
    (errors.WrapIf (some err) "failed to get CloudFormation template for Subnet", registry)
  | (subnetTemplate, none) =>
  match pkgEks.GetIAMTemplate with
  | (_, some err) =>
    (errors.WrapIf (some err) "failed to get CloudFormation template for IAM roles", registry)
  | (iamRolesTemplate, none) =>
  match pkgEks.GetNodePoolTemplate with
  | (_, some err) =>
    (errors.WrapIf (some err) "failed to get CloudFormation template for node pools", registry)
  | (nodePoolTemplate, none) =>
    let registry := registry ++ [.workflow .CreateClusterWorkflow names.CreateClusterWorkflowName]
    let registry := registry ++
      [.workflow .CreateInfrastructureWorkflow names.CreateInfraWorkflowName]
    let awsSessionFactory := eksworkflow.NewAWSSessionFactory secretStore
    let createVPCActivity := eksworkflow.Activity.CreateVPC awsSessionFactory vpcTemplate
    let registry := registry ++ [.activity createVPCActivity names.CreateVpcActivityName]
    let createSubnetActivity := eksworkflow.Activity.CreateSubnet awsSessionFactory subnetTemplate
    let registry := registry ++ [.activity createSubnetActivity names.CreateSubnetActivityName]
    let getSubnetsDetailsActivity := eksworkflow.Activity.GetSubnetsDetails awsSessionFactory
    let registry := registry ++
      [.activity getSubnetsDetailsActivity names.GetSubnetsDetailsActivityName]
    let createIamRolesActivity :=
      eksworkflow.Activity.CreateIamRoles awsSessionFactory iamRolesTemplate
    let registry := registry ++
      [.activity createIamRolesActivity names.CreateIamRolesActivityName]
    let uploadSSHActivityActivity := eksworkflow.Activity.UploadSSHKey awsSessionFactory
    let registry := registry ++
      [.activity uploadSSHActivityActivity names.UploadSSHKeyActivityName]
    let getVpcConfigActivity := eksworkflow.Activity.GetVpcConfig awsSessionFactory
    let registry := registry ++ [.activity getVpcConfigActivity names.GetVpcConfigActivityName]
    let createEksClusterActivity := eksworkflow.Activity.CreateEksCluster awsSessionFactory
    let registry := registry ++
      [.activity createEksClusterActivity names.CreateEksControlPlaneActivityName]
    let waitAttempts := goInt
      (time.Duration.Seconds asgFulfillmentTimeout / (asgWaitLoopSleepSeconds : ℚ))
    let waitInterval := (asgWaitLoopSleepSeconds : Int) * time.Second
    let createAsgActivity := eksworkflow.Activity.CreateAsg awsSessionFactory nodePoolTemplate
      waitAttempts waitInterval
    let registry := registry ++ [.activity createAsgActivity names.CreateAsgActivityName]
    let createUserAccessKeyActivity :=
      eksworkflow.Activity.CreateClusterUserAccessKey awsSessionFactory
    let registry := registry ++
      [.activity createUserAccessKeyActivity names.CreateClusterUserAccessKeyActivityName]
    let bootstrapActivity := eksworkflow.Activity.Bootstrap awsSessionFactory
    let registry := registry ++ [.activity bootstrapActivity names.BootstrapActivityName]
    (none, registry)

end worker

/-! ## The capacity fulfillment poller

The `Execute` method of the `CreateAsg` activity, which hosts the poller, lies in
the package `internal/providers/amazon/eks/workflow`, outside the sources at
hand.  The definitions of this section follow section 4.2 of the
specification. -/

namespace eksworkflow

/-- Modelled from the spec: the transient `FulfillmentState` of the poller
(section 3), `{ requested count, observed healthy count, elapsed attempts }`;
the body of the poller of `CreateAsgActivity.Execute` is missing from the
sources.  `observedHealthy` is `none` until a query has answered. -/
structure FulfillmentState where
  requested : Nat
  observedHealthy : Option Nat
  elapsedAttempts : Nat
  deriving DecidableEq, Repr

/-- Modelled from the spec: how the poller of `CreateAsgActivity.Execute`
(missing from the sources) terminates (section 4.2): successfully, or with a
timeout that surfaces the last observed count alongside the desired count. -/
inductive PollOutcome where
  | Fulfilled
  | TimedOut (lastObserved : Option Nat) (desired : Nat)
  deriving DecidableEq, Repr

/-- Modelled from the spec: what a run of the poller of
`CreateAsgActivity.Execute` (missing from the sources) did: its outcome, the
ticks (numbered from 0) at which it queried the provider, in order, and the
number of suspensions of one poll interval each. -/
structure PollRun where
  outcome : PollOutcome
  queried : List Nat
  sleeps : Nat
  deriving DecidableEq, Repr

/-- Modelled from the spec: the loop of the poller of `CreateAsgActivity.Execute`
(missing from the sources), section 4.2.  `provider tick` is the answer of the
provider to the query of that tick: `some n` for a healthy count `n`, `none`
for a transport error.  Each tick queries the provider once and consumes one
attempt, whether the query answers a lower count or fails; the first answer
`healthy ≥ requested` ends the run successfully; after every other tick the
activity is suspended for one poll interval; with no attempt left the run
times out with the last observed count. -/
def pollLoop (provider : Nat → Option Nat) :
    Nat → FulfillmentState → PollRun → PollRun
  | 0, st, run =>
    { run with outcome := PollOutcome.TimedOut st.observedHealthy st.requested }
  | remaining + 1, st, run =>
    let run := { run with queried := run.queried ++ [st.elapsedAttempts] }
    match provider st.elapsedAttempts with
    | some healthy =>
      if st.requested ≤ healthy then
        { run with outcome := PollOutcome.Fulfilled }
      else
        pollLoop provider remaining
          { st with observedHealthy := some healthy, elapsedAttempts := st.elapsedAttempts + 1 }
          { run with sleeps := run.sleeps + 1 }
    | none =>
      pollLoop provider remaining
        { st with elapsedAttempts := st.elapsedAttempts + 1 }
        { run with sleeps := run.sleeps + 1 }

/-- Modelled from the spec: the capacity fulfillment poller of
`CreateAsgActivity.Execute` (missing from the sources), section 4.2, run for a
desired count with the attempts of the wait policy. -/
def poll (desired : Nat) (waitAttempts : Nat) (provider : Nat → Option Nat) : PollRun :=
  pollLoop provider waitAttempts
    { requested := desired, observedHealthy := none, elapsedAttempts := 0 }
    { outcome := PollOutcome.TimedOut none desired, queried := [], sleeps := 0 }

/-- The wall-clock time a run spent suspended, for a given poll interval. -/
def PollRun.totalSleep (run : PollRun) (pollInterval : time.Duration) : time.Duration :=
  (run.sleeps : Int) * pollInterval

/-- Tick `tick` answers a healthy count that reaches `desired`. -/
def fulfilledAt (desired : Nat) (provider : Nat → Option Nat) (tick : Nat) : Bool :=
  match provider tick with
  | some healthy => decide (desired ≤ healthy)
  | none => false

end eksworkflow

/-! ## The workflows

The bodies of `CreateInfrastructureWorkflow` and `CreateClusterWorkflow` lie in
the package `internal/providers/amazon/eks/workflow`, outside the sources at
hand.  The definitions of this section follow sections 4.3, 5 and 7 of the
specification. -/

namespace eksworkflow

/-- Modelled from the spec: the activities of section 4.1, by the names the
specification gives them; the workflow bodies that invoke them are missing
from the sources. -/
inductive Step where
  | CreateNetwork
  | CreateSubnet
  | DescribeSubnets
  | CreateIdentityRoles
  | UploadAccessKey
  | DescribeNetworkConfig
  | CreateControlPlane
  | CreateCapacityGroup
  | CreateClusterCredentials
  | Bootstrap
  deriving DecidableEq, Repr

/-- Modelled from the spec: the eventual result of an activity as the workflow
sees it (sections 5 and 7); the workflow bodies are missing from the sources.
Transient failures are retried by the runtime and reach the workflow only
escalated to `Fatal`. -/
inductive ActivityResult where
  | Succeeded
  | AlreadySatisfied
  | Fatal
  | TimedOut
  | Cancelled
  deriving DecidableEq, Repr

/-- Modelled from the spec: the state of a workflow run (section 4.3, with the
`Cancelled` terminal state of sections 7 and 8); the workflow bodies are
missing from the sources. -/
inductive RunState where
  | Pending
  | Running
  | Succeeded
  | Failed
  | TimedOut
  | Cancelled
  deriving DecidableEq, Repr

/-- Modelled from the spec: a workflow run (section 3): its state, the
activities it invoked, in order, and the last successful step, recorded for
diagnosis; the workflow bodies are missing from the sources. -/
structure WorkflowRun where
  state : RunState
  invoked : List Step
  lastSuccessful : Option Step
  deriving DecidableEq, Repr

/-- Modelled from the spec: sequencing of section 4.3 (the workflow bodies are
missing from the sources): the steps are invoked in order; a successful or
already satisfied step lets the next one run; a `Fatal` or `TimedOut` step
aborts the remaining sequence and leaves the run `Failed` (section 7); a
`Cancelled` step short-circuits; when no step is left the run has succeeded. -/
def runSequence (result : Step → ActivityResult) : List Step → WorkflowRun → WorkflowRun
  | [], run => { run with state := RunState.Succeeded }
  | step :: rest, run =>
    let run := { run with state := RunState.Running, invoked := run.invoked ++ [step] }
    match result step with
    | ActivityResult.Succeeded => runSequence result rest { run with lastSuccessful := some step }
    | ActivityResult.AlreadySatisfied =>
      runSequence result rest { run with lastSuccessful := some step }
    | ActivityResult.Fatal => { run with state := RunState.Failed }
    | ActivityResult.TimedOut => { run with state := RunState.Failed }
    | ActivityResult.Cancelled => { run with state := RunState.Cancelled }

/-- Modelled from the spec: the step order of the Infrastructure Workflow
(section 4.3), `CreateNetwork → CreateSubnet → DescribeSubnets →
CreateIdentityRoles → CreateControlPlane`; the body of
`CreateInfrastructureWorkflow` is missing from the sources. -/
def infrastructureSteps : List Step :=
  [Step.CreateNetwork, Step.CreateSubnet, Step.DescribeSubnets, Step.CreateIdentityRoles,
    Step.CreateControlPlane]

/-- Modelled from the spec: the Infrastructure Workflow (section 4.3), run from
`Pending` against the eventual results of its activities; the body of
`CreateInfrastructureWorkflow` is missing from the sources. -/
def CreateInfrastructureWorkflow (result : Step → ActivityResult) : WorkflowRun :=
  runSequence result infrastructureSteps
    { state := RunState.Pending, invoked := [], lastSuccessful := none }

end eksworkflow

/-! ### The Cluster Workflow

Two of its steps may run concurrently, so a run is a sequence of start and
finish events accepted by a step function, one sequence for every
interleaving the runtime may produce. -/

namespace eksworkflow

/-- Modelled from the spec: the units the Cluster Workflow sequences (section
4.3): the Infrastructure Workflow as a sub-unit, then `UploadAccessKey`,
`CreateCapacityGroup`, `CreateClusterCredentials`, `Bootstrap`; the body of
`CreateClusterWorkflow` is missing from the sources. -/
inductive ClusterUnit where
  | InfrastructureWorkflow
  | UploadAccessKey
  | CreateCapacityGroup
  | CreateClusterCredentials
  | Bootstrap
  deriving DecidableEq, Repr

/-- Modelled from the spec: where a unit of a Cluster Workflow run stands
(the persisted progress of section 4.3); the body of `CreateClusterWorkflow`
is missing from the sources. -/
inductive UnitStatus where
  | NotStarted
  | Running
  | Completed
  | Failed
  deriving DecidableEq, Repr

/-- Modelled from the spec: the progress of one Cluster Workflow run, one
status per unit; the body of `CreateClusterWorkflow` is missing from the
sources. -/
structure ClusterRun where
  infrastructureWorkflow : UnitStatus
  uploadAccessKey : UnitStatus
  createCapacityGroup : UnitStatus
  createClusterCredentials : UnitStatus
  bootstrap : UnitStatus
  deriving DecidableEq, Repr

/-- Modelled from the spec: what the runtime reports to a Cluster Workflow
run: a unit was started, or a unit finished, successfully or not; the body of
`CreateClusterWorkflow` is missing from the sources. -/
inductive ClusterEvent where
  | start (unit : ClusterUnit)
  | finish (unit : ClusterUnit) (succeeded : Bool)
  deriving DecidableEq, Repr

/-- The status of a unit in a run. -/
def ClusterRun.status (run : ClusterRun) : ClusterUnit → UnitStatus
  | ClusterUnit.InfrastructureWorkflow => run.infrastructureWorkflow
  | ClusterUnit.UploadAccessKey => run.uploadAccessKey
  | ClusterUnit.CreateCapacityGroup => run.createCapacityGroup
  | ClusterUnit.CreateClusterCredentials => run.createClusterCredentials
  | ClusterUnit.Bootstrap => run.bootstrap

/-- The run with the status of one unit replaced. -/
def ClusterRun.setStatus (run : ClusterRun) (unit : ClusterUnit) (st : UnitStatus) :
    ClusterRun :=
  match unit with
  | ClusterUnit.InfrastructureWorkflow => { run with infrastructureWorkflow := st }
  | ClusterUnit.UploadAccessKey => { run with uploadAccessKey := st }
  | ClusterUnit.CreateCapacityGroup => { run with createCapacityGroup := st }
  | ClusterUnit.CreateClusterCredentials => { run with createClusterCredentials := st }
  | ClusterUnit.Bootstrap => { run with bootstrap := st }

/-- Modelled from the spec: a failed unit aborts the remaining sequence of the
Cluster Workflow (sections 4.3 and 7); the body of `CreateClusterWorkflow` is
missing from the sources. -/
def ClusterRun.aborted (run : ClusterRun) : Bool :=
  decide (run.infrastructureWorkflow = UnitStatus.Failed) ||
  decide (run.uploadAccessKey = UnitStatus.Failed) ||
  decide (run.createCapacityGroup = UnitStatus.Failed) ||
  decide (run.createClusterCredentials = UnitStatus.Failed) ||
  decide (run.bootstrap = UnitStatus.Failed)

/-- Modelled from the spec: the dependencies of the Cluster Workflow (sections
4.3 and 5), whose body `CreateClusterWorkflow` is missing from the sources:
the Infrastructure Workflow comes first; `UploadAccessKey` and
`CreateCapacityGroup` are independent of each other and may both be issued once
it has completed; `CreateClusterCredentials` follows `CreateCapacityGroup` in
program order; `Bootstrap` waits on both independent steps and on the step
before it. -/
def ClusterRun.ready (run : ClusterRun) : ClusterUnit → Bool
  | ClusterUnit.InfrastructureWorkflow => true
  | ClusterUnit.UploadAccessKey => decide (run.infrastructureWorkflow = UnitStatus.Completed)
  | ClusterUnit.CreateCapacityGroup => decide (run.infrastructureWorkflow = UnitStatus.Completed)
  | ClusterUnit.CreateClusterCredentials =>
    decide (run.createCapacityGroup = UnitStatus.Completed)
  | ClusterUnit.Bootstrap =>
    decide (run.uploadAccessKey = UnitStatus.Completed) &&
    decide (run.createCapacityGroup = UnitStatus.Completed) &&
    decide (run.createClusterCredentials = UnitStatus.Completed)

/-- Modelled from the spec: one transition of a Cluster Workflow run (the body
of `CreateClusterWorkflow` is missing from the sources).  A unit starts once,
when the run is not aborted and its dependencies have completed; only a
running unit finishes, as `Completed` or as `Failed`.  An event that is not
enabled yields `none`. -/
def ClusterRun.step (run : ClusterRun) : ClusterEvent → Option ClusterRun
  | ClusterEvent.start unit =>
    if run.aborted = false ∧ run.status unit = UnitStatus.NotStarted ∧ run.ready unit = true then
      some (run.setStatus unit UnitStatus.Running)
    else
      none
  | ClusterEvent.finish unit succeeded =>
    if run.status unit = UnitStatus.Running then
      some (run.setStatus unit (if succeeded then UnitStatus.Completed else UnitStatus.Failed))
    else
      none

/-- A run driven through a sequence of events; `none` if some event of the
sequence was not enabled when it came. -/
def ClusterRun.exec : ClusterRun → List ClusterEvent → Option ClusterRun
  | run, [] => some run
  | run, ev :: evs =>
    match run.step ev with
    | none => none
    | some next => next.exec evs

/-- Modelled from the spec: the Cluster Workflow (section 4.3), started with
every unit `NotStarted` and driven by the events of one execution; the body of
`CreateClusterWorkflow` is missing from the sources. -/
def CreateClusterWorkflow (events : List ClusterEvent) : Option ClusterRun :=
  ClusterRun.exec
    { infrastructureWorkflow := UnitStatus.NotStarted, uploadAccessKey := UnitStatus.NotStarted,
      createCapacityGroup := UnitStatus.NotStarted,
      createClusterCredentials := UnitStatus.NotStarted, bootstrap := UnitStatus.NotStarted }
    events

end eksworkflow

/-! ## Types of `internal/helm` and of the Helm and Kubernetes libraries

Go pointers to structs are represented by the struct they point to: the
functions below dereference them only after the call that produced them has
returned a `nil` error. -/

namespace helm

/-- The type `helm.KubeConfigBytes`, a byte slice. -/
abbrev KubeConfigBytes := List UInt8

/-- The release values, a Go `map[string]interface{}` that the code below only
passes on. -/
structure Values where
  entries : List (String × String)
  deriving DecidableEq, Repr

/-- The struct `helm.ReleaseInfo`. -/
structure ReleaseInfo where
  FirstDeployed : Int
  LastDeployed : Int
  Deleted : Int
  Description : String
  Status : String
  Notes : String
  Values : Values
  deriving DecidableEq, Repr

/-- The struct `helm.Release`. -/
structure Release where
  ReleaseName : String
  ChartName : String
  Namespace : String
  Values : Values
  Version : String
  ReleaseVersion : Int
  ReleaseInfo : ReleaseInfo
  deriving DecidableEq, Repr

/-- The fields of `helm.Options` read in `releaser_service.go`. -/
structure Options where
  Namespace : String
  Install : Bool
  Wait : Bool
  Filter : Option String
  deriving DecidableEq, Repr

/-- The values behind the three getters of `helm.HelmEnv`. -/
structure HelmEnv where
  GetHome : String
  GetRepoCache : String
  GetCacheDir : String
  deriving DecidableEq, Repr

end helm

namespace chart

/-- The struct `chart.Dependency`. -/
structure Dependency where
  Name : String
  Version : String
  Repository : String
  deriving DecidableEq, Repr

/-- The fields of `chart.Metadata` read in `releaser_service.go`.  `Type_` is
the Go field `Type`; `Dependencies` is `none` for a `nil` slice. -/
structure Metadata where
  Name : String
  Version : String
  Type_ : String
  Deprecated : Bool
  Dependencies : Option (List Dependency)
  deriving DecidableEq, Repr

/-- The struct `chart.Chart`, as returned by a successful `loader.Load`. -/
structure Chart where
  Metadata : Metadata
  Values : helm.Values
  deriving DecidableEq, Repr

end chart

namespace cli

/-- The struct `cli.EnvSettings`. -/
structure EnvSettings where
  KubeConfig : String
  KubeContext : String
  Debug : Bool
  RegistryConfig : String
  RepositoryConfig : String
  RepositoryCache : String
  PluginsDirectory : String
  deriving DecidableEq, Repr

end cli

namespace helmadapter

/-- The struct `customGetter` (its logger apart). -/
structure customGetter where
  kubeConfigBytes : helm.KubeConfigBytes
  ns : String
  cacheDir : String
  deriving DecidableEq, Repr

/-- The function `NewCustomGetter(namespace, kubeconfig, cacheDir, logger)`. -/
def NewCustomGetter (ns : String) (kubeconfig : helm.KubeConfigBytes) (cacheDir : String) :
    customGetter :=
  { kubeConfigBytes := kubeconfig, ns := ns, cacheDir := cacheDir }

end helmadapter

namespace action

/-- An `action.Configuration` after `Init(clientGetter, namespace, "", log)`:
the arguments it was initialised with. -/
structure Configuration where
  clientGetter : helmadapter.customGetter
  ns : String
  helmDriver : String
  deriving DecidableEq, Repr

/-- The struct `action.ChartPathOptions`. -/
structure ChartPathOptions where
  CaFile : String
  CertFile : String
  KeyFile : String
  Keyring : String
  Password : String
  RepoURL : String
  Username : String
  Verify : Bool
  Version : String
  deriving DecidableEq, Repr

/-- The struct `action.Install`: its configuration and the exported fields that
`releaser_service.go` or `NameAndChart` read or write. -/
structure Install where
  cfg : Configuration
  ChartPathOptions : ChartPathOptions
  Wait : Bool
  Devel : Bool
  DependencyUpdate : Bool
  Timeout : time.Duration
  Namespace : String
  ReleaseName : String
  GenerateName : Bool
  NameTemplate : String
  deriving DecidableEq, Repr

/-- The struct `action.Upgrade`: its configuration and the exported fields that
`releaser_service.go` reads or writes. -/
structure Upgrade where
  cfg : Configuration
  ChartPathOptions : ChartPathOptions
  Install : Bool
  Devel : Bool
  Namespace : String
  Timeout : time.Duration
  Wait : Bool
  deriving DecidableEq, Repr

/-- The struct `action.History`. -/
structure History where
  cfg : Configuration
  Max : Int
  deriving DecidableEq, Repr

/-- The function `action.NewHistory(cfg)`. -/
def NewHistory (cfg : Configuration) : History :=
  { cfg := cfg, Max := 0 }

end action

namespace getter

/-- The value of `getter.All(settings)`, known by its argument. -/
structure Providers where
  settings : cli.EnvSettings
  deriving DecidableEq, Repr

/-- The function `getter.All(settings)`. -/
def All (settings : cli.EnvSettings) : Providers :=
  { settings := settings }

end getter

namespace downloader

/-- The struct `downloader.Manager`, with the fields `Install` fills in (`Out`,
the standard output, apart). -/
structure Manager where
  ChartPath : String
  Keyring : String
  SkipUpdate : Bool
  Getters : getter.Providers
  RepositoryConfig : String
  RepositoryCache : String
  deriving DecidableEq, Repr

end downloader

namespace k8sclient

/-- A Kubernetes client set, known by the arguments of
`NewClientFromKubeConfigWithTimeout`. -/
structure Clientset where
  kubeConfig : helm.KubeConfigBytes
  timeout : time.Duration
  deriving DecidableEq, Repr

end k8sclient

namespace release

/-- The fields of the Helm library struct `release.Release` used here. -/
structure Release where
  Name : String
  Namespace : String
  Version : Int
  deriving DecidableEq, Repr

end release

/-! ## The world outside the repository -/

/-- A call that left the process, as recorded in the trace. -/
inductive Event where
  | ConfigurationInit (ns : String)
  | LocateChart (name : String)
  | Load (path : String)
  | ManagerUpdate (chartPath : String)
  | NewClientFromKubeConfigWithTimeout
  | NamespacesList
  | NamespacesCreate (name : String)
  | InstallRun (releaseName : String) (ns : String)
  | HistoryRun (releaseName : String)
  | UpgradeRun (releaseName : String)
  deriving DecidableEq, Repr

/-- The functions of the Helm library, of the Kubernetes client and of the
parts of the repository that lie outside `releaser_service.go`, over a state
of the outside world `W`.  A Go result `(T, error)` of which the code reads the
value only when the error is `nil` is an `Except error T`. -/
structure External (W : Type) where
  /-- The function `cli.New()`. -/
  cliNew : cli.EnvSettings
  /-- The method `helm.Release.NameAndChartSlice`. -/
  NameAndChartSlice : helm.Release → List String
  /-- The method `action.Configuration.Init`. -/
  ConfigurationInit : helmadapter.customGetter → String → String → W → Option error × W
  /-- The function `action.NewInstall`. -/
  NewInstall : action.Configuration → action.Install
  /-- The method `action.Install.NameAndChart`. -/
  NameAndChart : action.Install → List String → Except error (String × String)
  /-- The method `action.ChartPathOptions.LocateChart`. -/
  LocateChart : action.ChartPathOptions → String → cli.EnvSettings → W → Except error String × W
  /-- The function `loader.Load`. -/
  Load : String → W → Except error chart.Chart × W
  /-- The function `action.CheckDependencies`. -/
  CheckDependencies : chart.Chart → List chart.Dependency → Option error
  /-- The method `downloader.Manager.Update`. -/
  ManagerUpdate : downloader.Manager → W → Option error × W
  /-- The function `k8sclient.NewClientFromKubeConfigWithTimeout`. -/
  NewClientFromKubeConfigWithTimeout :
    helm.KubeConfigBytes → time.Duration → W → Except error k8sclient.Clientset × W
  /-- The call `clientSet.CoreV1().Namespaces().List`, answering the names. -/
  NamespacesList : k8sclient.Clientset → W → Except error (List String) × W
  /-- The call `clientSet.CoreV1().Namespaces().Create` for a namespace name. -/
  NamespacesCreate : k8sclient.Clientset → String → W → Option error × W
  /-- The method `action.Install.Run`. -/
  InstallRun : action.Install → chart.Chart → helm.Values → W → Except error release.Release × W
  /-- The method `action.History.Run`, of which only the error is read. -/
  HistoryRun : action.History → String → W → Option error × W
  /-- The function `action.NewUpgrade`. -/
  NewUpgrade : action.Configuration → action.Upgrade
  /-- The method `action.Upgrade.Run`. -/
  UpgradeRun :
    action.Upgrade → String → chart.Chart → helm.Values → W → Except error release.Release × W

/-- The state threaded through the code: the outside world and the trace of the
calls made to it so far. -/
structure St (W : Type) where
  world : W
  trace : List Event

/-- One call to the outside world: the event is appended to the trace and the
world is advanced by the call. -/
def St.call {W α : Type} (s : St W) (ev : Event) (f : W → α × W) : α × St W :=
  let r := f s.world
  (r.1, { world := r.2, trace := s.trace ++ [ev] })

/-- The event is a run of the upgrade action. -/
def Event.isUpgradeRun : Event → Bool
  | Event.UpgradeRun _ => true
  | _ => false

/-! ## `internal/helm/helmadapter/releaser_service.go`

Calls to the logger change neither a result nor the outside world and are left
out. -/

namespace helmadapter

/-- The method `releaser.processEnvSettings`. -/
def releaser.processEnvSettings {W : Type} (x : External W) (helmEnv : helm.HelmEnv) :
    cli.EnvSettings :=
  let envSettings := x.cliNew
  let envSettings := { envSettings with RepositoryConfig := helmEnv.GetHome }
  let envSettings := { envSettings with RepositoryCache := helmEnv.GetRepoCache }
  envSettings

/-- The method `releaser.getActionConfiguration`: the initialised configuration,
or the error of `Init` annotated by `errors.WrapIf`. -/
def releaser.getActionConfiguration {W : Type} (x : External W) (clientGetter : customGetter)
    (ns : String) (s : St W) : Except error action.Configuration × St W :=
  match s.call (Event.ConfigurationInit ns) (x.ConfigurationInit clientGetter ns "") with
  | (some err, s) => (Except.error (error.wrapped err "failed to initialize  action config"), s)
  | (none, s) => (Except.ok { clientGetter := clientGetter, ns := ns, helmDriver := "" }, s)

/-- The function `isChartInstallable`: the Go pair `(bool, error)`. -/
def isChartInstallable (ch : chart.Chart) : Bool × Option error :=
  if ch.Metadata.Type_ = "" ∨ ch.Metadata.Type_ = "application" then
    (true, none)
  else
    (false, errors.Errorf (ch.Metadata.Type_ ++ " charts are not installable"))

/-- The namespace `ns` that `Install`, `Uninstall` and `Upgrade` start from:
`"default"`, replaced by `options.Namespace` when that is not empty. -/
def releaser.ns (options : helm.Options) : String :=
  if options.Namespace ≠ "" then options.Namespace else "default"

/-- The upgrade action as `Upgrade` has set it up when it locates the chart:
`action.NewUpgrade(actionConfig)` with `Namespace`, `Install`, `Wait`, `Timeout`
and `Version` assigned, and the version replaced by `">0.0.0-0"` when it is
empty and `Devel` is set. -/
def releaser.upgradeAction {W : Type} (x : External W) (actionConfig : action.Configuration)
    (releaseInput : helm.Release) (options : helm.Options) : action.Upgrade :=
  let upgradeAction := x.NewUpgrade actionConfig
  let upgradeAction := { upgradeAction with Namespace := releaser.ns options }
  let upgradeAction := { upgradeAction with Install := options.Install }
  let upgradeAction := { upgradeAction with Wait := options.Wait }
  let upgradeAction := { upgradeAction with Timeout := time.Minute * 5 }
  let upgradeAction := { upgradeAction with
    ChartPathOptions := { upgradeAction.ChartPathOptions with Version := releaseInput.Version } }
  if upgradeAction.ChartPathOptions.Version = "" ∧ upgradeAction.Devel = true then
    { upgradeAction with
      ChartPathOptions := { upgradeAction.ChartPathOptions with Version := ">0.0.0-0" } }
  else
    upgradeAction

/-- The history client of `Upgrade`: `action.NewHistory(actionConfig)` with
`Max` set to 1. -/
def releaser.histClient (actionConfig : action.Configuration) : action.History :=
  let histClient := action.NewHistory actionConfig
  { histClient with Max := 1 }

/-- Lines 116-138 of `Install`, the check of the chart dependencies: `some` of
the pair `Install` returns from inside the block, or `none` when control leaves
the block at its end. -/
def releaser.Install.dependencies {W : Type} (x : External W) (installAction : action.Install)
    (envSettings : cli.EnvSettings) (cp : String) (p : getter.Providers)
    (chartRequested : chart.Chart) (s : St W) : Option (String × Option error) × St W :=
  match chartRequested.Metadata.Dependencies with
  | none => (none, s)
  | some req =>
    match x.CheckDependencies chartRequested req with
    | none => (none, s)
    | some err =>
      if installAction.DependencyUpdate then
        let man : downloader.Manager :=
          { ChartPath := cp, Keyring := installAction.ChartPathOptions.Keyring,
            SkipUpdate := false, Getters := p,
            RepositoryConfig := envSettings.RepositoryConfig,
            RepositoryCache := envSettings.RepositoryCache }
        match s.call (Event.ManagerUpdate cp) (x.ManagerUpdate man) with
        | (some err, s) =>
          (some ("", errors.WrapIf (some err) "failed to update chart dependencies"), s)
        | (none, s) => (none, s)
      else
        (some ("", errors.WrapIf (some err) "failed to check chart dependencies"), s)

/-- Lines 140-165 of `Install`, the Kubernetes client and the namespace of the
release: `some` of the pair `Install` returns from inside these lines, or `none`
when control reaches line 167. -/
def releaser.Install.releaseNamespace {W : Type} (x : External W)
    (kubeConfig : helm.KubeConfigBytes) (installAction : action.Install) (s : St W) :
    Option (String × Option error) × St W :=
  match s.call Event.NewClientFromKubeConfigWithTimeout
      (x.NewClientFromKubeConfigWithTimeout kubeConfig (time.Second * 10)) with
  | (Except.error err, s) =>
    (some ("", errors.WrapIf (some err) "failed to create kubernetes client"), s)
  | (Except.ok clientSet, s) =>
  match s.call Event.NamespacesList (x.NamespacesList clientSet) with
  | (Except.error err, s) =>
    (some ("", errors.WrapIf (some err) "failed to list kubernetes namespaces"), s)
  | (Except.ok namespaces, s) =>
  let foundNs := namespaces.foldl
    (fun foundNs nsName => if nsName = installAction.Namespace then true else foundNs) false
  if !foundNs then
    match s.call (Event.NamespacesCreate installAction.Namespace)
        (x.NamespacesCreate clientSet installAction.Namespace) with
    | (some err, s) =>
      (some ("", errors.WrapIf (some err) "failed to create release namespace"), s)
    | (none, s) => (none, s)
  else
    (none, s)

/-- The method `releaser.Install`: the Go pair `(string, error)` and the state
after the call. -/
def releaser.Install {W : Type} (x : External W) (helmEnv : helm.HelmEnv)
    (kubeConfig : helm.KubeConfigBytes) (releaseInput : helm.Release) (options : helm.Options)
    (s : St W) : (String × Option error) × St W :=
  let envSettings := releaser.processEnvSettings x helmEnv
  let ns := releaser.ns options
  let restClientGetter := NewCustomGetter ns kubeConfig helmEnv.GetCacheDir
  match releaser.getActionConfiguration x restClientGetter ns s with
  | (Except.error err, s) =>
    (("", errors.WrapIf (some err) "failed to get  action configuration"), s)
  | (Except.ok actionConfig, s) =>
  let installAction := x.NewInstall actionConfig
  let installAction := { installAction with Namespace := ns }
  match x.NameAndChart installAction (x.NameAndChartSlice releaseInput) with
  | Except.error err => (("", errors.WrapIf (some err) "failed to get  name  and chart"), s)
  | Except.ok (name, chartRef) =>
  let installAction := { installAction with ReleaseName := name }
  let installAction := { installAction with Wait := options.Wait }
  let installAction := { installAction with Timeout := time.Minute * 5 }
  let installAction := { installAction with
    ChartPathOptions := { installAction.ChartPathOptions with Version := releaseInput.Version } }
  match s.call (Event.LocateChart chartRef)
      (x.LocateChart installAction.ChartPathOptions chartRef envSettings) with
  | (Except.error err, s) => (("", errors.WrapIf (some err) "failed to locate chart"), s)
  | (Except.ok cp, s) =>
  let p := getter.All envSettings
  match s.call (Event.Load cp) (x.Load cp) with
  | (Except.error err, s) => (("", errors.WrapIf (some err) "failed to load chart"), s)
  | (Except.ok chartRequested, s) =>
  match isChartInstallable chartRequested with
  | (false, err) => (("", errors.WrapIf err "chart is not installable"), s)
  | (true, _) =>
  match releaser.Install.dependencies x installAction envSettings cp p chartRequested s with
  | (some returned, s) => (returned, s)
  | (none, s) =>
  match releaser.Install.releaseNamespace x kubeConfig installAction s with
  | (some returned, s) => (returned, s)
  | (none, s) =>
  match s.call (Event.InstallRun installAction.ReleaseName installAction.Namespace)
      (x.InstallRun installAction chartRequested releaseInput.Values) with
  | (Except.error err, s) => (("", errors.WrapIf (some err) "failed to install chart"), s)
  | (Except.ok releasePtr, s) => ((releasePtr.Name, none), s)

/-- Lines 333-355 of `Upgrade`, the statements after the `if upgradeAction.Install`
block: the chart is loaded, its dependencies are checked and the upgrade action
is run. -/
def releaser.Upgrade.run {W : Type} (x : External W) (upgradeAction : action.Upgrade)
    (chartPath : String) (releaseInput : helm.Release) (s : St W) :
    (String × Option error) × St W :=
  match s.call (Event.Load chartPath) (x.Load chartPath) with
  | (Except.error err, s) => (("", errors.WrapIf (some err) "failed to load chart"), s)
  | (Except.ok ch, s) =>
  let dependencies : Option error :=
    match ch.Metadata.Dependencies with
    | none => none
    | some req => x.CheckDependencies ch req
  match dependencies with
  | some err => (("", errors.WrapIf (some err) "failed to check dependencies"), s)
  | none =>
  match s.call (Event.UpgradeRun releaseInput.ReleaseName)
      (x.UpgradeRun upgradeAction releaseInput.ReleaseName ch releaseInput.Values) with
  | (Except.error err, s) => (("", errors.Wrap (some err) "UPGRADE FAILED"), s)
  | (Except.ok rel, s) => ((rel.Name, none), s)

/-- The method `releaser.Upgrade`: the Go pair `(string, error)` and the state
after the call. -/
def releaser.Upgrade {W : Type} (x : External W) (helmEnv : helm.HelmEnv)
    (kubeConfig : helm.KubeConfigBytes) (releaseInput : helm.Release) (options : helm.Options)
    (s : St W) : (String × Option error) × St W :=
  let ns := releaser.ns options
  let restClientGetter := NewCustomGetter ns kubeConfig helmEnv.GetCacheDir
  match releaser.getActionConfiguration x restClientGetter ns s with
  | (Except.error err, s) =>
    (("", errors.WrapIf (some err) "failed to get  action configuration"), s)
  | (Except.ok actionConfig, s) =>
  let upgradeAction := releaser.upgradeAction x actionConfig releaseInput options
  match s.call (Event.LocateChart releaseInput.ChartName)
      (x.LocateChart upgradeAction.ChartPathOptions releaseInput.ChartName
        (releaser.processEnvSettings x helmEnv)) with
  | (Except.error err, s) => (("", errors.WrapIf (some err) "failed to locate chart"), s)
  | (Except.ok chartPath, s) =>
  if upgradeAction.Install then
    let histClient := releaser.histClient actionConfig
    match s.call (Event.HistoryRun releaseInput.ReleaseName)
        (x.HistoryRun histClient releaseInput.ReleaseName) with
    | (some err, s) =>
      if err = error.ErrReleaseNotFound then
        match releaser.Install x helmEnv kubeConfig releaseInput options s with
        | ((_, some err), s) =>
          (("", errors.WrapIf (some err) "failed to install release during upgrade"), s)
        | ((rel, none), s) => ((rel, none), s)
      else
        (("", errors.WrapIf (some err) "failed to install release during upgrade"), s)
    | (none, s) => releaser.Upgrade.run x upgradeAction chartPath releaseInput s
  else
    releaser.Upgrade.run x upgradeAction chartPath releaseInput s

/-- The method `releaseDeleter.filterReleases`: both loops append to `filtered`
in the order they run. -/
def releaseDeleter.filterReleases (releases : List helm.Release) (namespaces : List String) :
    List helm.Release :=
  if namespaces.length = 0 ∨ releases.length = 0 then
    releases
  else
    releases.foldl
      (fun filtered release =>
        namespaces.foldl
          (fun filtered ns => if release.Namespace = ns then filtered ++ [release] else filtered)
          filtered)
      []

end helmadapter

/-! ## What `Install` has set up when it loads the chart -/

/-- The event lists or creates a Kubernetes namespace or runs the install
action. -/
def Event.isNamespaceOrInstallRun : Event → Bool
  | Event.NamespacesList => true
  | Event.NamespacesCreate _ => true
  | Event.InstallRun _ _ => true
  | _ => false

namespace helmadapter

/-- The install action as `Install` passes it to `NameAndChart`:
`action.NewInstall(actionConfig)` with `Namespace` assigned (lines 82-83). -/
def releaser.Install.namedAction {W : Type} (x : External W)
    (actionConfig : action.Configuration) (options : helm.Options) : action.Install :=
  let installAction := x.NewInstall actionConfig
  { installAction with Namespace := releaser.ns options }

/-- The chart path options `Install` locates the chart with: those of
`action.NewInstall(actionConfig)` with `Version` assigned (line 92). -/
def releaser.Install.chartPathOptions {W : Type} (x : External W)
    (actionConfig : action.Configuration) (releaseInput : helm.Release) :
    action.ChartPathOptions :=
  { (x.NewInstall actionConfig).ChartPathOptions with Version := releaseInput.Version }

end helmadapter

/-! ## Packages `gorm` and `emperror` -/

namespace emperror

/-- The function `emperror.WrapWith(err, message, keyvals...)`: `nil` stays `nil`,
any other error is annotated with the message.  The key-value context does not
decide whether the result is `nil` and is not kept. -/
def WrapWith (err : Option error) (message : String) : Option error :=
  match err with
  | none => none
  | some e => some (error.wrapped e message)

end emperror

namespace gorm

/-- A database handle `*gorm.DB` for values of type `V`: the database behind it
(its answer to a delete, over a state of the outside world `W`), the state of
that world, and the log of the deletes issued so far, each with the `Error` it
ended with. -/
structure DB (V W : Type) where
  delete : V → W → Option error × W
  world : W
  log : List (V × Option error)

/-- The call `db.Delete(value).Error`: the error of the delete and the handle
afterwards, the delete appended to the log. -/
def DB.Delete {V W : Type} (db : DB V W) (value : V) : Option error × DB V W :=
  let r := db.delete value db.world
  (r.1, { db with world := r.2, log := db.log ++ [(value, r.1)] })

/-- Deletes issued one after the other, each with the message its error is
annotated with: the first error ends the sequence and is returned annotated;
when every delete succeeds the result is `nil`. -/
def DB.deleteEach {V W : Type} : List (V × String) → DB V W → Option error × DB V W
  | [], db => (none, db)
  | (value, message) :: rest, db =>
    match db.Delete value with
    | (some e, db) => (emperror.WrapWith (some e) message, db)
    | (none, db) => DB.deleteEach rest db

end gorm

/-! ## `internal/providers/banzaicloud/ec2_cluster_model.go`

The types of the related entries are declared in other files of the package;
they appear here with the fields `BeforeDelete` reads. -/

namespace banzaicloud

/-- The struct `Network`. -/
structure Network where
  ID : Nat
  deriving DecidableEq, Repr

/-- The struct `CRI`. -/
structure CRI where
  ID : Nat
  deriving DecidableEq, Repr

/-- The struct `KubeADM`. -/
structure KubeADM where
  ID : Nat
  deriving DecidableEq, Repr

/-- The struct `Kubernetes`. -/
structure Kubernetes where
  ID : Nat
  deriving DecidableEq, Repr

/-- One host of a node pool. -/
structure Host where
  ID : Nat
  Name : String
  deriving DecidableEq, Repr

/-- The type `Hosts` of the field `NodePool.Hosts`. -/
abbrev Hosts := List Host

/-- The struct `NodePool`. -/
structure NodePool where
  Name : String
  Hosts : Hosts
  deriving DecidableEq, Repr

/-- The type `NodePools`, a slice of node pools. -/
abbrev NodePools := List NodePool

/-- The struct `EC2BanzaiCloudClusterModel` (its `Cluster` association, which
`BeforeDelete` does not read, apart). -/
structure EC2BanzaiCloudClusterModel where
  ID : Nat
  ClusterID : Nat
  MasterInstanceType : String
  MasterImage : String
  Network : Network
  NodePools : NodePools
  Kubernetes : Kubernetes
  KubeADM : KubeADM
  CRI : CRI
  deriving DecidableEq, Repr

/-- The values `BeforeDelete` passes to `db.Delete`. -/
inductive Value where
  | Network (value : Network)
  | CRI (value : CRI)
  | Hosts (value : Hosts)
  | NodePools (value : NodePools)
  | KubeADM (value : KubeADM)
  | Kubernetes (value : Kubernetes)
  deriving DecidableEq, Repr

/-- The method `TableName`. -/
def EC2BanzaiCloudClusterModel.TableName : String :=
  "amazon_ec2_clusters"

/-- The loop of `BeforeDelete` over `m.NodePools` (lines 54-58): the error the
method returns from inside the loop, or `nil` when the loop has run through. -/
def EC2BanzaiCloudClusterModel.BeforeDelete.hosts {W : Type} :
    List NodePool → gorm.DB Value W → Option error × gorm.DB Value W
  | [], db => (none, db)
  | np :: rest, db =>
    match db.Delete (Value.Hosts np.Hosts) with
    | (some e, db) => (emperror.WrapWith (some e) "failed to delete nodepool hosts", db)
    | (none, db) => EC2BanzaiCloudClusterModel.BeforeDelete.hosts rest db

/-- The method `BeforeDelete`: the returned `error` and the database handle
after the call. -/
def EC2BanzaiCloudClusterModel.BeforeDelete {W : Type} (m : EC2BanzaiCloudClusterModel)
    (db : gorm.DB Value W) : Option error × gorm.DB Value W :=
  match db.Delete (Value.Network m.Network) with
  | (some e, db) => (emperror.WrapWith (some e) "failed to delete network", db)
  | (none, db) =>
  match db.Delete (Value.CRI m.CRI) with
  | (some e, db) => (emperror.WrapWith (some e) "failed to delete cri", db)
  | (none, db) =>
  match EC2BanzaiCloudClusterModel.BeforeDelete.hosts m.NodePools db with
  | (some returned, db) => (some returned, db)
  | (none, db) =>
  match db.Delete (Value.NodePools m.NodePools) with
  | (some e, db) => (emperror.WrapWith (some e) "failed to delete nodepools", db)
  | (none, db) =>
  match db.Delete (Value.KubeADM m.KubeADM) with
  | (some e, db) => (emperror.WrapWith (some e) "failed to delete KubeADM", db)
  | (none, db) =>
  match db.Delete (Value.Kubernetes m.Kubernetes) with
  | (some e, db) => (emperror.WrapWith (some e) "failed to delete Kubernetes", db)
  | (e, db) => (e, db)

/-- The order in which the related entries are to be deleted: the network, the
CRI, the hosts of each node pool in node-pool order, the node pools, KubeADM,
Kubernetes. -/
def deleteOrder (m : EC2BanzaiCloudClusterModel) : List Value :=
  Value.Network m.Network :: Value.CRI m.CRI ::
    (m.NodePools.map (fun np => Value.Hosts np.Hosts) ++
      [Value.NodePools m.NodePools, Value.KubeADM m.KubeADM, Value.Kubernetes m.Kubernetes])

/-- The deletes of `deleteOrder`, each with the message `BeforeDelete` annotates
its error with. -/
def deleteSteps (m : EC2BanzaiCloudClusterModel) : List (Value × String) :=
  (Value.Network m.Network, "failed to delete network") ::
    (Value.CRI m.CRI, "failed to delete cri") ::
    (m.NodePools.map (fun np => (Value.Hosts np.Hosts, "failed to delete nodepool hosts")) ++
      [ (Value.NodePools m.NodePools, "failed to delete nodepools"),
        (Value.KubeADM m.KubeADM, "failed to delete KubeADM"),
        (Value.Kubernetes m.Kubernetes, "failed to delete Kubernetes") ])

end banzaicloud

/-! ## The registrations the specification expects -/

namespace worker

/-- The registrations the specification asks of the registrar, in the order of
`registerEKSWorkflows`: the two workflows and the `Execute` methods of the ten
activities, each under its own name constant, every activity built from the one
session factory of the secret store and the template of its kind. -/
def expectedRegistrations {S : Type} (names : eksworkflow.Names) (pkgEks : TemplateProvider)
    (secretStore : S) : List (Registration S) :=
  [ Registration.workflow eksworkflow.Workflow.CreateClusterWorkflow
      names.CreateClusterWorkflowName,
    Registration.workflow eksworkflow.Workflow.CreateInfrastructureWorkflow
      names.CreateInfraWorkflowName,
    Registration.activity
      (eksworkflow.Activity.CreateVPC (eksworkflow.NewAWSSessionFactory secretStore)
        pkgEks.GetVPCTemplate.1) names.CreateVpcActivityName,
    Registration.activity
      (eksworkflow.Activity.CreateSubnet (eksworkflow.NewAWSSessionFactory secretStore)
        pkgEks.GetSubnetTemplate.1) names.CreateSubnetActivityName,
    Registration.activity
      (eksworkflow.Activity.GetSubnetsDetails (eksworkflow.NewAWSSessionFactory secretStore))
      names.GetSubnetsDetailsActivityName,
    Registration.activity
      (eksworkflow.Activity.CreateIamRoles (eksworkflow.NewAWSSessionFactory secretStore)
        pkgEks.GetIAMTemplate.1) names.CreateIamRolesActivityName,
    Registration.activity
      (eksworkflow.Activity.UploadSSHKey (eksworkflow.NewAWSSessionFactory secretStore))
      names.UploadSSHKeyActivityName,
    Registration.activity
      (eksworkflow.Activity.GetVpcConfig (eksworkflow.NewAWSSessionFactory secretStore))
      names.GetVpcConfigActivityName,
    Registration.activity
      (eksworkflow.Activity.CreateEksCluster (eksworkflow.NewAWSSessionFactory secretStore))
      names.CreateEksControlPlaneActivityName,
    Registration.activity
      (eksworkflow.Activity.CreateAsg (eksworkflow.NewAWSSessionFactory secretStore)
        pkgEks.GetNodePoolTemplate.1 24 (5 * time.Second))
      names.CreateAsgActivityName,
    Registration.activity
      (eksworkflow.Activity.CreateClusterUserAccessKey
        (eksworkflow.NewAWSSessionFactory secretStore))
      names.CreateClusterUserAccessKeyActivityName,
    Registration.activity
      (eksworkflow.Activity.Bootstrap (eksworkflow.NewAWSSessionFactory secretStore))
      names.BootstrapActivityName ]

end worker

/-! ## Sample inputs -/

/-- Sample values for the name constants. -/
def sampleNames : eksworkflow.Names :=
  { CreateClusterWorkflowName := "eks-create-cluster",
    CreateInfraWorkflowName := "eks-create-infra",
    CreateVpcActivityName := "eks-create-vpc",
    CreateSubnetActivityName := "eks-create-subnet",
    GetSubnetsDetailsActivityName := "eks-get-subnets-details",
    CreateIamRolesActivityName := "eks-create-iam-roles",
    UploadSSHKeyActivityName := "eks-upload-ssh-key",
    GetVpcConfigActivityName := "eks-get-vpc-cfg",
    CreateEksControlPlaneActivityName := "eks-create-control-plane",
    CreateAsgActivityName := "eks-create-asg",
    CreateClusterUserAccessKeyActivityName := "eks-create-cluster-user-access-key",
    BootstrapActivityName := "eks-bootstrap" }

/-- A template provider whose four getters succeed. -/
def sampleTemplates : TemplateProvider :=
  { GetVPCTemplate := ("vpc-template", none),
    GetSubnetTemplate := ("subnet-template", none),
    GetIAMTemplate := ("iam-template", none),
    GetNodePoolTemplate := ("nodepool-template", none) }

/-- An execution of the Cluster Workflow in which `CreateCapacityGroup` finishes
before `UploadAccessKey` and `Bootstrap` has not been started yet. -/
def sampleClusterEvents : List eksworkflow.ClusterEvent :=
  [ eksworkflow.ClusterEvent.start eksworkflow.ClusterUnit.InfrastructureWorkflow,
    eksworkflow.ClusterEvent.finish eksworkflow.ClusterUnit.InfrastructureWorkflow true,
    eksworkflow.ClusterEvent.start eksworkflow.ClusterUnit.UploadAccessKey,
    eksworkflow.ClusterEvent.start eksworkflow.ClusterUnit.CreateCapacityGroup,
    eksworkflow.ClusterEvent.finish eksworkflow.ClusterUnit.CreateCapacityGroup true,
    eksworkflow.ClusterEvent.start eksworkflow.ClusterUnit.CreateClusterCredentials,
    eksworkflow.ClusterEvent.finish eksworkflow.ClusterUnit.UploadAccessKey true,
    eksworkflow.ClusterEvent.finish eksworkflow.ClusterUnit.CreateClusterCredentials true ]

/-- The state the sample execution ends in. -/
def sampleClusterRun : eksworkflow.ClusterRun :=
  { infrastructureWorkflow := eksworkflow.UnitStatus.Completed,
    uploadAccessKey := eksworkflow.UnitStatus.Completed,
    createCapacityGroup := eksworkflow.UnitStatus.Completed,
    createClusterCredentials := eksworkflow.UnitStatus.Completed,
    bootstrap := eksworkflow.UnitStatus.NotStarted }

/-- An outside world without state in which every call succeeds, the chart
loaded is an application chart without dependencies, the cluster has the two
Kubernetes namespaces `default` and `kube-system`, and the history of every
release reports `ErrReleaseNotFound`. -/
def sampleExternal : External Unit :=
  { cliNew :=
      { KubeConfig := "", KubeContext := "", Debug := false, RegistryConfig := "",
        RepositoryConfig := "", RepositoryCache := "", PluginsDirectory := "" },
    NameAndChartSlice := fun r => [r.ReleaseName, r.ChartName],
    ConfigurationInit := fun _ _ _ w => (none, w),
    NewInstall := fun cfg =>
      { cfg := cfg,
        ChartPathOptions :=
          { CaFile := "", CertFile := "", KeyFile := "", Keyring := "", Password := "",
            RepoURL := "", Username := "", Verify := false, Version := "" },
        Wait := false, Devel := false, DependencyUpdate := false, Timeout := 0,
        Namespace := "", ReleaseName := "", GenerateName := false, NameTemplate := "" },
    NameAndChart := fun _ args =>
      match args with
      | [name, chartRef] => Except.ok (name, chartRef)
      | _ => Except.error (error.msg "must either provide a name or specify --generate-name"),
    LocateChart := fun _ name _ w => (Except.ok ("/cache/" ++ name), w),
    Load := fun _ w =>
      (Except.ok
        { Metadata :=
            { Name := "demo", Version := "1.0.0", Type_ := "application", Deprecated := false,
              Dependencies := none },
          Values := { entries := [] } }, w),
    CheckDependencies := fun _ _ => none,
    ManagerUpdate := fun _ w => (none, w),
    NewClientFromKubeConfigWithTimeout := fun kubeConfig timeout w =>
      (Except.ok { kubeConfig := kubeConfig, timeout := timeout }, w),
    NamespacesList := fun _ w => (Except.ok ["default", "kube-system"], w),
    NamespacesCreate := fun _ _ w => (none, w),
    InstallRun := fun installAction _ _ w =>
      (Except.ok
        { Name := installAction.ReleaseName, Namespace := installAction.Namespace, Version := 1 },
        w),
    HistoryRun := fun _ _ w => (some error.ErrReleaseNotFound, w),
    NewUpgrade := fun cfg =>
      { cfg := cfg,
        ChartPathOptions :=
          { CaFile := "", CertFile := "", KeyFile := "", Keyring := "", Password := "",
            RepoURL := "", Username := "", Verify := false, Version := "" },
        Install := false, Devel := false, Namespace := "", Timeout := 0, Wait := false },
    UpgradeRun := fun upgradeAction name _ _ w =>
      (Except.ok { Name := name, Namespace := upgradeAction.Namespace, Version := 2 }, w) }

/-- A Helm environment. -/
def sampleHelmEnv : helm.HelmEnv :=
  { GetHome := "/helm/repositories.yaml", GetRepoCache := "/helm/cache", GetCacheDir := "/cache" }

/-- A release `demo` of the chart `stable/demo` in the namespace `default`. -/
def sampleRelease : helm.Release :=
  { ReleaseName := "demo", ChartName := "stable/demo", Namespace := "default",
    Values := { entries := [] }, Version := "1.0.0", ReleaseVersion := 1,
    ReleaseInfo :=
      { FirstDeployed := 0, LastDeployed := 0, Deleted := 0, Description := "", Status := "",
        Notes := "", Values := { entries := [] } } }

/-- Options of an upgrade that installs a missing release. -/
def sampleOptions : helm.Options :=
  { Namespace := "", Install := true, Wait := false, Filter := none }

/-- The state before any call: a world without state and an empty trace. -/
def sampleState : St Unit :=
  { world := (), trace := [] }

/-- The sample world with a loader that yields a library chart. -/
def sampleLibraryExternal : External Unit :=
  { sampleExternal with
    Load := fun _ w =>
      (Except.ok
        { Metadata :=
            { Name := "common", Version := "1.0.0", Type_ := "library", Deprecated := false,
              Dependencies := none },
          Values := { entries := [] } }, w) }

/-- The library chart of the sample loader. -/
def sampleLibraryChart : chart.Chart :=
  { Metadata :=
      { Name := "common", Version := "1.0.0", Type_ := "library", Deprecated := false,
        Dependencies := none },
    Values := { entries := [] } }

/-- A cluster model with two node pools. -/
def sampleClusterModel : banzaicloud.EC2BanzaiCloudClusterModel :=
  { ID := 1, ClusterID := 7, MasterInstanceType := "m5.large", MasterImage := "ami-1",
    Network := { ID := 11 },
    NodePools :=
      [ { Name := "pool1", Hosts := [{ ID := 21, Name := "host-a" }] },
        { Name := "pool2", Hosts := [{ ID := 22, Name := "host-b" }] } ],
    Kubernetes := { ID := 12 }, KubeADM := { ID := 13 }, CRI := { ID := 14 } }

/-- A database in which the delete of the hosts of `pool2` fails and every
other delete succeeds. -/
def sampleFailingDB : gorm.DB banzaicloud.Value Unit :=
  { delete := fun value w =>
      (if value = banzaicloud.Value.Hosts [{ ID := 22, Name := "host-b" }] then
        some (error.msg "connection reset") else none, w),
    world := (), log := [] }

/-! # Theorems -/

/-! ## Evaluation of the wait policy -/

theorem worker.asgFulfillmentTimeout_seconds :
    time.Duration.Seconds worker.asgFulfillmentTimeout = 120 := by
  simp [worker.asgFulfillmentTimeout, time.Duration.Seconds, time.Minute, time.Second,
    time.Millisecond, time.Microsecond, time.Nanosecond]
  norm_num [Int.tdiv, Int.tmod]

theorem worker.waitAttempts_eq : worker.waitAttempts = 24 := by
  rw [worker.waitAttempts, worker.asgFulfillmentTimeout_seconds]
  norm_num [worker.asgWaitLoopSleepSeconds, goInt]
  rfl

theorem worker.waitInterval_eq : worker.waitInterval = 5 * time.Second := by
  decide

theorem worker.asgFulfillmentTimeout_eq : worker.asgFulfillmentTimeout = 120 * time.Second := by
  decide

/-- The registry entries `registerEKSWorkflows` appends when the four templates
load. -/
theorem worker.registerEKSWorkflows_loaded {S : Type} (names : eksworkflow.Names)
    (pkgEks : TemplateProvider) (secretStore : S) (registry : List (Registration S))
    (hvpc : pkgEks.GetVPCTemplate.2 = none) (hsubnet : pkgEks.GetSubnetTemplate.2 = none)
    (hiam : pkgEks.GetIAMTemplate.2 = none) (hnp : pkgEks.GetNodePoolTemplate.2 = none) :
    worker.registerEKSWorkflows names pkgEks secretStore registry =
      (none, registry ++ worker.expectedRegistrations names pkgEks secretStore) := by
  obtain ⟨⟨vpc, e1⟩, ⟨subnet, e2⟩, ⟨iam, e3⟩, ⟨np, e4⟩⟩ := pkgEks
  simp only at hvpc hsubnet hiam hnp
  subst hvpc hsubnet hiam hnp
  have h24 := worker.waitAttempts_eq
  have h5 := worker.waitInterval_eq
  simp only [worker.waitAttempts, worker.waitInterval] at h24 h5
  simp [worker.registerEKSWorkflows, worker.expectedRegistrations, h24, h5]

/-! ## The poller never exceeds its attempts -/

theorem eksworkflow.pollLoop_queried_le (provider : Nat → Option Nat) (n : Nat)
    (st : eksworkflow.FulfillmentState) (run : eksworkflow.PollRun) :
    (eksworkflow.pollLoop provider n st run).queried.length ≤ run.queried.length + n := by
  induction n generalizing st run with
  | zero => simp [eksworkflow.pollLoop]
  | succ n ih =>
    simp only [eksworkflow.pollLoop]
    split
    · split
      · simp
      · refine le_trans (ih _ _) ?_
        simp
        omega
    · refine le_trans (ih _ _) ?_
      simp
      omega

theorem eksworkflow.pollLoop_sleeps_le (provider : Nat → Option Nat) (n : Nat)
    (st : eksworkflow.FulfillmentState) (run : eksworkflow.PollRun) :
    (eksworkflow.pollLoop provider n st run).sleeps ≤ run.sleeps + n := by
  induction n generalizing st run with
  | zero => simp [eksworkflow.pollLoop]
  | succ n ih =>
    simp only [eksworkflow.pollLoop]
    split
    · split
      · simp
      · refine le_trans (ih _ _) ?_
        simp
        omega
    · refine le_trans (ih _ _) ?_
      simp
      omega

/-! ## Claims about `registerEKSWorkflows` -/

/-- C1: the ceiling of 120 seconds divided by the poll interval of 5 seconds
gives `waitAttempts = 24` exactly; when the templates load, that value is the
attempts of the `CreateAsg` activity handed to the runtime; and a poller that
consumes one attempt per provider query makes at most 24 queries with it,
whatever the provider answers. -/
theorem C1_waitAttempts_is_ceiling_over_interval {S : Type} (names : eksworkflow.Names)
    (pkgEks : TemplateProvider) (secretStore : S) (registry : List (Registration S))
    (hvpc : pkgEks.GetVPCTemplate.2 = none) (hsubnet : pkgEks.GetSubnetTemplate.2 = none)
    (hiam : pkgEks.GetIAMTemplate.2 = none) (hnp : pkgEks.GetNodePoolTemplate.2 = none) :
    time.Duration.Seconds worker.asgFulfillmentTimeout = 120 ∧
    worker.asgWaitLoopSleepSeconds = 5 ∧
    (worker.waitAttempts : ℚ) =
      time.Duration.Seconds worker.asgFulfillmentTimeout / (worker.asgWaitLoopSleepSeconds : ℚ) ∧
    worker.waitAttempts = 24 ∧
    Registration.activity
        (eksworkflow.Activity.CreateAsg (eksworkflow.NewAWSSessionFactory secretStore)
          pkgEks.GetNodePoolTemplate.1 24 worker.waitInterval)
        names.CreateAsgActivityName ∈
      (worker.registerEKSWorkflows names pkgEks secretStore registry).2 ∧
    ∀ (desired : Nat) (provider : Nat → Option Nat),
      (eksworkflow.poll desired (Int.toNat worker.waitAttempts) provider).queried.length ≤ 24 := by
  refine ⟨worker.asgFulfillmentTimeout_seconds, rfl, ?_, worker.waitAttempts_eq, ?_, ?_⟩
  · rw [worker.waitAttempts_eq, worker.asgFulfillmentTimeout_seconds]
    norm_num [worker.asgWaitLoopSleepSeconds]
  · rw [worker.registerEKSWorkflows_loaded names pkgEks secretStore registry hvpc hsubnet hiam hnp]
    simp [worker.expectedRegistrations, worker.waitInterval_eq]
  · intro desired provider
    have h := eksworkflow.pollLoop_queried_le provider (Int.toNat worker.waitAttempts)
      { requested := desired, observedHealthy := none, elapsedAttempts := 0 }
      { outcome := eksworkflow.PollOutcome.TimedOut none desired, queried := [], sleeps := 0 }
    rw [worker.waitAttempts_eq] at h
    rw [worker.waitAttempts_eq]
    simpa [eksworkflow.poll] using h

/-- Witness of C1 at the sample names and templates, on an empty registry, for
a provider that never reports a healthy instance. -/
theorem C1_waitAttempts_is_ceiling_over_interval_witness :
    (sampleTemplates.GetVPCTemplate.2 = none ∧ sampleTemplates.GetSubnetTemplate.2 = none ∧
      sampleTemplates.GetIAMTemplate.2 = none ∧ sampleTemplates.GetNodePoolTemplate.2 = none) ∧
    worker.waitAttempts = 24 ∧
    Registration.activity
        (eksworkflow.Activity.CreateAsg (eksworkflow.NewAWSSessionFactory ())
          "nodepool-template" 24 worker.waitInterval)
        "eks-create-asg" ∈
      (worker.registerEKSWorkflows sampleNames sampleTemplates () []).2 ∧
    (eksworkflow.poll 3 (Int.toNat worker.waitAttempts) (fun _ => some 0)).queried.length ≤ 24 :=
  have h := C1_waitAttempts_is_ceiling_over_interval sampleNames sampleTemplates () []
    rfl rfl rfl rfl
  ⟨⟨rfl, rfl, rfl, rfl⟩, h.2.2.2.1, h.2.2.2.2.1, h.2.2.2.2.2 3 (fun _ => some 0)⟩

/-- C2: the wait policy handed to the `CreateAsg` activity has the cadence of 5
seconds and the ceiling of 2 minutes: `waitInterval` is 5 seconds,
`waitAttempts * waitInterval` is `asgFulfillmentTimeout` (24 x 5 s = 120 s), and
the time a poller run with this policy spends asleep never exceeds the ceiling,
whatever the provider answers. -/
theorem C2_wait_policy_cadence_and_ceiling {S : Type} (names : eksworkflow.Names)
    (pkgEks : TemplateProvider) (secretStore : S) (registry : List (Registration S))
    (hvpc : pkgEks.GetVPCTemplate.2 = none) (hsubnet : pkgEks.GetSubnetTemplate.2 = none)
    (hiam : pkgEks.GetIAMTemplate.2 = none) (hnp : pkgEks.GetNodePoolTemplate.2 = none) :
    worker.waitInterval = 5 * time.Second ∧
    worker.asgFulfillmentTimeout = 2 * time.Minute ∧
    worker.waitAttempts * worker.waitInterval = worker.asgFulfillmentTimeout ∧
    24 * (5 * time.Second) = 120 * time.Second ∧
    Registration.activity
        (eksworkflow.Activity.CreateAsg (eksworkflow.NewAWSSessionFactory secretStore)
          pkgEks.GetNodePoolTemplate.1 worker.waitAttempts (5 * time.Second))
        names.CreateAsgActivityName ∈
      (worker.registerEKSWorkflows names pkgEks secretStore registry).2 ∧
    ∀ (desired : Nat) (provider : Nat → Option Nat),
      (eksworkflow.poll desired (Int.toNat worker.waitAttempts) provider).totalSleep
        worker.waitInterval ≤ worker.asgFulfillmentTimeout := by
  refine ⟨worker.waitInterval_eq, rfl, ?_, by decide, ?_, ?_⟩
  · rw [worker.waitAttempts_eq]
    decide
  · rw [worker.registerEKSWorkflows_loaded names pkgEks secretStore registry hvpc hsubnet hiam hnp]
    simp [worker.expectedRegistrations, worker.waitAttempts_eq]
  · intro desired provider
    have h := eksworkflow.pollLoop_sleeps_le provider (Int.toNat worker.waitAttempts)
      { requested := desired, observedHealthy := none, elapsedAttempts := 0 }
      { outcome := eksworkflow.PollOutcome.TimedOut none desired, queried := [], sleeps := 0 }
    rw [worker.waitAttempts_eq] at h
    have h24 : (eksworkflow.poll desired (Int.toNat worker.waitAttempts) provider).sleeps ≤ 24 := by
      rw [worker.waitAttempts_eq]
      simpa [eksworkflow.poll] using h
    have hs : worker.waitInterval = 5000000000 := by decide
    have ht : worker.asgFulfillmentTimeout = 120000000000 := by decide
    have h24i : ((eksworkflow.poll desired (Int.toNat worker.waitAttempts) provider).sleeps : Int)
        ≤ 24 := by exact_mod_cast h24
    rw [eksworkflow.PollRun.totalSleep, hs, ht]
    exact le_trans (Int.mul_le_mul_of_nonneg_right h24i (by decide)) (by decide)

/-- Witness of C2 at the sample names and templates, on an empty registry, for
a provider that never reports a healthy instance. -/
theorem C2_wait_policy_cadence_and_ceiling_witness :
    (sampleTemplates.GetVPCTemplate.2 = none ∧ sampleTemplates.GetSubnetTemplate.2 = none ∧
      sampleTemplates.GetIAMTemplate.2 = none ∧ sampleTemplates.GetNodePoolTemplate.2 = none) ∧
    worker.waitInterval = 5 * time.Second ∧
    worker.waitAttempts * worker.waitInterval = worker.asgFulfillmentTimeout ∧
    Registration.activity
        (eksworkflow.Activity.CreateAsg (eksworkflow.NewAWSSessionFactory ())
          "nodepool-template" worker.waitAttempts (5 * time.Second))
        "eks-create-asg" ∈
      (worker.registerEKSWorkflows sampleNames sampleTemplates () []).2 ∧
    (eksworkflow.poll 3 (Int.toNat worker.waitAttempts) (fun _ => some 0)).totalSleep
      worker.waitInterval ≤ worker.asgFulfillmentTimeout :=
  have h := C2_wait_policy_cadence_and_ceiling sampleNames sampleTemplates () []
    rfl rfl rfl rfl
  ⟨⟨rfl, rfl, rfl, rfl⟩, h.1, h.2.2.1, h.2.2.2.2.1, h.2.2.2.2.2 3 (fun _ => some 0)⟩

/-- C3: when the four template loads succeed, `registerEKSWorkflows` returns
`nil` and has appended to the registry exactly the two workflows and the
`Execute` methods of the ten activities, each once and each under its own name
constant, in the order of the source. -/
theorem C3_registers_two_workflows_ten_activities {S : Type} (names : eksworkflow.Names)
    (pkgEks : TemplateProvider) (secretStore : S) (registry : List (Registration S))
    (hvpc : pkgEks.GetVPCTemplate.2 = none) (hsubnet : pkgEks.GetSubnetTemplate.2 = none)
    (hiam : pkgEks.GetIAMTemplate.2 = none) (hnp : pkgEks.GetNodePoolTemplate.2 = none) :
    (worker.registerEKSWorkflows names pkgEks secretStore registry).1 = none ∧
    (worker.registerEKSWorkflows names pkgEks secretStore registry).2 =
      registry ++ worker.expectedRegistrations names pkgEks secretStore ∧
    (worker.expectedRegistrations names pkgEks secretStore).length = 12 ∧
    ((worker.expectedRegistrations names pkgEks secretStore).filterMap
        Registration.workflow?).length = 2 ∧
    ((worker.expectedRegistrations names pkgEks secretStore).filterMap
        Registration.activity?).length = 10 ∧
    (worker.expectedRegistrations names pkgEks secretStore).Nodup := by
  rw [worker.registerEKSWorkflows_loaded names pkgEks secretStore registry hvpc hsubnet hiam hnp]
  refine ⟨rfl, rfl, rfl, rfl, rfl, ?_⟩
  simp [worker.expectedRegistrations]

/-- Witness of C3 at the sample names and templates, on an empty registry. -/
theorem C3_registers_two_workflows_ten_activities_witness :
    (sampleTemplates.GetVPCTemplate.2 = none ∧ sampleTemplates.GetSubnetTemplate.2 = none ∧
      sampleTemplates.GetIAMTemplate.2 = none ∧ sampleTemplates.GetNodePoolTemplate.2 = none) ∧
    (worker.registerEKSWorkflows sampleNames sampleTemplates () []).1 = none ∧
    (worker.registerEKSWorkflows sampleNames sampleTemplates () []).2 =
      [] ++ worker.expectedRegistrations sampleNames sampleTemplates () :=
  have h := C3_registers_two_workflows_ten_activities sampleNames sampleTemplates () []
    rfl rfl rfl rfl
  ⟨⟨rfl, rfl, rfl, rfl⟩, h.1, h.2.1⟩

/-- C4: when the four template loads succeed, the activities `registerEKSWorkflows`
hands over are the ten activities built from the one session factory made from
the given secret store; the VPC, subnet, IAM and node-pool templates reach,
unmodified, the `CreateVPC`, `CreateSubnet`, `CreateIamRoles` and `CreateAsg`
activities, and no other activity receives a template. -/
theorem C4_session_factory_and_templates_wired {S : Type} (names : eksworkflow.Names)
    (pkgEks : TemplateProvider) (secretStore : S) (registry : List (Registration S))
    (hvpc : pkgEks.GetVPCTemplate.2 = none) (hsubnet : pkgEks.GetSubnetTemplate.2 = none)
    (hiam : pkgEks.GetIAMTemplate.2 = none) (hnp : pkgEks.GetNodePoolTemplate.2 = none) :
    (((worker.registerEKSWorkflows names pkgEks secretStore registry).2.drop
        registry.length).filterMap Registration.activity?) =
      [ eksworkflow.Activity.CreateVPC (eksworkflow.NewAWSSessionFactory secretStore)
          pkgEks.GetVPCTemplate.1,
        eksworkflow.Activity.CreateSubnet (eksworkflow.NewAWSSessionFactory secretStore)
          pkgEks.GetSubnetTemplate.1,
        eksworkflow.Activity.GetSubnetsDetails (eksworkflow.NewAWSSessionFactory secretStore),
        eksworkflow.Activity.CreateIamRoles (eksworkflow.NewAWSSessionFactory secretStore)
          pkgEks.GetIAMTemplate.1,
        eksworkflow.Activity.UploadSSHKey (eksworkflow.NewAWSSessionFactory secretStore),
        eksworkflow.Activity.GetVpcConfig (eksworkflow.NewAWSSessionFactory secretStore),
        eksworkflow.Activity.CreateEksCluster (eksworkflow.NewAWSSessionFactory secretStore),
        eksworkflow.Activity.CreateAsg (eksworkflow.NewAWSSessionFactory secretStore)
          pkgEks.GetNodePoolTemplate.1 24 (5 * time.Second),
        eksworkflow.Activity.CreateClusterUserAccessKey
          (eksworkflow.NewAWSSessionFactory secretStore),
        eksworkflow.Activity.Bootstrap (eksworkflow.NewAWSSessionFactory secretStore) ] ∧
    (∀ a ∈ ((worker.registerEKSWorkflows names pkgEks secretStore registry).2.drop
        registry.length).filterMap Registration.activity?,
      a.sessionFactory = eksworkflow.NewAWSSessionFactory secretStore) ∧
    (((worker.registerEKSWorkflows names pkgEks secretStore registry).2.drop
        registry.length).filterMap Registration.activity?).map eksworkflow.Activity.template =
      [ some pkgEks.GetVPCTemplate.1, some pkgEks.GetSubnetTemplate.1, none,
        some pkgEks.GetIAMTemplate.1, none, none, none, some pkgEks.GetNodePoolTemplate.1,
        none, none ] := by
  rw [worker.registerEKSWorkflows_loaded names pkgEks secretStore registry hvpc hsubnet hiam hnp]
  simp [worker.expectedRegistrations, Registration.activity?, eksworkflow.Activity.sessionFactory,
    eksworkflow.Activity.template]

/-- Witness of C4 at the sample names and templates, on an empty registry. -/
theorem C4_session_factory_and_templates_wired_witness :
    (sampleTemplates.GetVPCTemplate.2 = none ∧ sampleTemplates.GetSubnetTemplate.2 = none ∧
      sampleTemplates.GetIAMTemplate.2 = none ∧ sampleTemplates.GetNodePoolTemplate.2 = none) ∧
    (((worker.registerEKSWorkflows sampleNames sampleTemplates () []).2.drop
        ([] : List (Registration Unit)).length).filterMap Registration.activity?).map
        eksworkflow.Activity.template =
      [ some "vpc-template", some "subnet-template", none, some "iam-template", none, none,
        none, some "nodepool-template", none, none ] :=
  have h := C4_session_factory_and_templates_wired sampleNames sampleTemplates () []
    rfl rfl rfl rfl
  ⟨⟨rfl, rfl, rfl, rfl⟩, h.2.2⟩

/-! ## The poller stops at the first fulfilled tick -/

theorem eksworkflow.pollLoop_fulfilled (provider : Nat → Option Nat) (desired : Nat) :
    ∀ (d n : Nat) (st : eksworkflow.FulfillmentState) (run : eksworkflow.PollRun),
      st.requested = desired → d < n →
      (∀ j, j < d → eksworkflow.fulfilledAt desired provider (st.elapsedAttempts + j) = false) →
      eksworkflow.fulfilledAt desired provider (st.elapsedAttempts + d) = true →
      eksworkflow.pollLoop provider n st run =
        { outcome := eksworkflow.PollOutcome.Fulfilled,
          queried := run.queried ++ List.range' st.elapsedAttempts (d + 1),
          sleeps := run.sleeps + d } := by
  intro d
  induction d with
  | zero =>
    intro n st run hreq hn _ hreach
    obtain ⟨m, rfl⟩ : ∃ m, n = m + 1 := ⟨n - 1, by omega⟩
    simp only [eksworkflow.fulfilledAt, Nat.add_zero] at hreach
    simp only [eksworkflow.pollLoop]
    cases hp : provider st.elapsedAttempts with
    | none => simp [hp] at hreach
    | some healthy =>
      simp only [hp, decide_eq_true_eq] at hreach
      simp [hreq, hreach, List.range']
  | succ d ih =>
    intro n st run hreq hn hbefore hreach
    obtain ⟨m, rfl⟩ : ∃ m, n = m + 1 := ⟨n - 1, by omega⟩
    have h0 := hbefore 0 (by omega)
    simp only [eksworkflow.fulfilledAt, Nat.add_zero] at h0
    have hnext : ∀ (st2 : eksworkflow.FulfillmentState) (run2 : eksworkflow.PollRun),
        st2.requested = desired → st2.elapsedAttempts = st.elapsedAttempts + 1 →
        run2.queried = run.queried ++ [st.elapsedAttempts] → run2.sleeps = run.sleeps + 1 →
        eksworkflow.pollLoop provider m st2 run2 =
          { outcome := eksworkflow.PollOutcome.Fulfilled,
            queried := run.queried ++ List.range' st.elapsedAttempts (d + 1 + 1),
            sleeps := run.sleeps + (d + 1) } := by
      intro st2 run2 hreq2 hel hq hs
      rw [ih m st2 run2 hreq2 (by omega)
        (fun j hj => by
          have := hbefore (j + 1) (by omega)
          rw [hel]
          rwa [Nat.add_assoc, Nat.add_comm 1 j])
        (by
          rw [hel]
          rwa [Nat.add_assoc, Nat.add_comm 1 d])]
      rw [hq, hs, hel]
      simp [List.range', Nat.add_assoc, Nat.add_comm 1 d]
    simp only [eksworkflow.pollLoop]
    cases hp : provider st.elapsedAttempts with
    | none => exact hnext _ _ hreq rfl rfl rfl
    | some healthy =>
      simp only [hp, decide_eq_false_iff_not] at h0
      simp only [hreq, h0, if_false]
      exact hnext _ _ rfl rfl rfl rfl

/-- C5: if the provider first answers a healthy count that reaches the desired
count at a tick within the attempts of the poller, the poller returns success
at that tick: it has queried the provider at every tick up to that one, once
each, and at no later tick, also when that tick comes before the attempt
ceiling. -/
theorem C5_poller_succeeds_at_first_fulfilled_tick (desired waitAttempts : Nat)
    (provider : Nat → Option Nat) (tick : Nat) (hwithin : tick < waitAttempts)
    (hbefore : ∀ j, j < tick → eksworkflow.fulfilledAt desired provider j = false)
    (hreach : eksworkflow.fulfilledAt desired provider tick = true) :
    (eksworkflow.poll desired waitAttempts provider).outcome = eksworkflow.PollOutcome.Fulfilled ∧
    (eksworkflow.poll desired waitAttempts provider).queried = List.range (tick + 1) ∧
    (eksworkflow.poll desired waitAttempts provider).queried.length = tick + 1 ∧
    (eksworkflow.poll desired waitAttempts provider).sleeps = tick := by
  have h := eksworkflow.pollLoop_fulfilled provider desired tick waitAttempts
    { requested := desired, observedHealthy := none, elapsedAttempts := 0 }
    { outcome := eksworkflow.PollOutcome.TimedOut none desired, queried := [], sleeps := 0 }
    rfl hwithin (by simpa using hbefore) (by simpa using hreach)
  rw [eksworkflow.poll, h]
  simp [List.range_eq_range']

/-- Witness of C5: desired 3, 24 attempts, a healthy count that grows by one
per tick and reaches 3 on the fourth tick (tick 3 counting from 0): success
after exactly 4 queries. -/
theorem C5_poller_succeeds_at_first_fulfilled_tick_witness :
    (3 < 24 ∧ eksworkflow.fulfilledAt 3 (fun t => some t) 3 = true) ∧
    (eksworkflow.poll 3 24 (fun t => some t)).outcome = eksworkflow.PollOutcome.Fulfilled ∧
    (eksworkflow.poll 3 24 (fun t => some t)).queried = [0, 1, 2, 3] ∧
    (eksworkflow.poll 3 24 (fun t => some t)).queried.length = 4 :=
  have h := C5_poller_succeeds_at_first_fulfilled_tick 3 24 (fun t => some t) 3 (by decide)
    (fun j hj => by
      have hj3 : j ≤ 2 := by omega
      interval_cases j <;> rfl)
    rfl
  ⟨⟨by decide, rfl⟩, h.1, h.2.1, h.2.2.1⟩

/-! ## The workflows -/

/-- C6: if `CreateNetwork` returns a `Fatal` failure, the Infrastructure Workflow
invokes no step after it: the run stops where `CreateSubnet` would start,
`CreateIdentityRoles` and the later steps are never invoked, and the run ends
`Failed`. -/
theorem C6_infrastructure_aborts_after_fatal_network
    (result : eksworkflow.Step → eksworkflow.ActivityResult)
    (hfatal : result eksworkflow.Step.CreateNetwork = eksworkflow.ActivityResult.Fatal) :
    (eksworkflow.CreateInfrastructureWorkflow result).state = eksworkflow.RunState.Failed ∧
    (eksworkflow.CreateInfrastructureWorkflow result).invoked = [eksworkflow.Step.CreateNetwork] ∧
    eksworkflow.Step.CreateSubnet ∉ (eksworkflow.CreateInfrastructureWorkflow result).invoked ∧
    eksworkflow.Step.DescribeSubnets ∉ (eksworkflow.CreateInfrastructureWorkflow result).invoked ∧
    eksworkflow.Step.CreateIdentityRoles ∉
      (eksworkflow.CreateInfrastructureWorkflow result).invoked ∧
    eksworkflow.Step.CreateControlPlane ∉
      (eksworkflow.CreateInfrastructureWorkflow result).invoked ∧
    (eksworkflow.CreateInfrastructureWorkflow result).lastSuccessful = none := by
  simp [eksworkflow.CreateInfrastructureWorkflow, eksworkflow.infrastructureSteps,
    eksworkflow.runSequence, hfatal]

/-- Witness of C6: `CreateNetwork` fails fatally, every other step would
succeed. -/
theorem C6_infrastructure_aborts_after_fatal_network_witness :
    (fun step => if step = eksworkflow.Step.CreateNetwork then eksworkflow.ActivityResult.Fatal
        else eksworkflow.ActivityResult.Succeeded) eksworkflow.Step.CreateNetwork =
      eksworkflow.ActivityResult.Fatal ∧
    (eksworkflow.CreateInfrastructureWorkflow
      (fun step => if step = eksworkflow.Step.CreateNetwork then eksworkflow.ActivityResult.Fatal
        else eksworkflow.ActivityResult.Succeeded)).state = eksworkflow.RunState.Failed ∧
    (eksworkflow.CreateInfrastructureWorkflow
      (fun step => if step = eksworkflow.Step.CreateNetwork then eksworkflow.ActivityResult.Fatal
        else eksworkflow.ActivityResult.Succeeded)).invoked = [eksworkflow.Step.CreateNetwork] :=
  have h := C6_infrastructure_aborts_after_fatal_network
    (fun step => if step = eksworkflow.Step.CreateNetwork then eksworkflow.ActivityResult.Fatal
      else eksworkflow.ActivityResult.Succeeded) rfl
  ⟨rfl, h.1, h.2.1⟩

/-- What every reachable state of a Cluster Workflow run satisfies: once
`Bootstrap` has left `NotStarted`, both independent steps are `Completed`. -/
theorem eksworkflow.ClusterRun.step_keeps_bootstrap_after_both
    (run next : eksworkflow.ClusterRun) (ev : eksworkflow.ClusterEvent)
    (hstep : run.step ev = some next)
    (hinv : run.bootstrap ≠ eksworkflow.UnitStatus.NotStarted →
      run.uploadAccessKey = eksworkflow.UnitStatus.Completed ∧
      run.createCapacityGroup = eksworkflow.UnitStatus.Completed) :
    next.bootstrap ≠ eksworkflow.UnitStatus.NotStarted →
      next.uploadAccessKey = eksworkflow.UnitStatus.Completed ∧
      next.createCapacityGroup = eksworkflow.UnitStatus.Completed := by
  cases ev with
  | start unit =>
    simp only [eksworkflow.ClusterRun.step] at hstep
    split at hstep
    · rename_i hguard
      obtain ⟨_, hns, hready⟩ := hguard
      cases hstep
      cases unit <;>
        simp_all [eksworkflow.ClusterRun.setStatus, eksworkflow.ClusterRun.status,
          eksworkflow.ClusterRun.ready]
    · cases hstep
  | finish unit succeeded =>
    simp only [eksworkflow.ClusterRun.step] at hstep
    split at hstep
    · rename_i hrunning
      cases hstep
      cases unit <;>
        simp_all [eksworkflow.ClusterRun.setStatus, eksworkflow.ClusterRun.status]
    · cases hstep

theorem eksworkflow.ClusterRun.exec_keeps_bootstrap_after_both
    (events : List eksworkflow.ClusterEvent) :
    ∀ (run final : eksworkflow.ClusterRun), run.exec events = some final →
      (run.bootstrap ≠ eksworkflow.UnitStatus.NotStarted →
        run.uploadAccessKey = eksworkflow.UnitStatus.Completed ∧
        run.createCapacityGroup = eksworkflow.UnitStatus.Completed) →
      (final.bootstrap ≠ eksworkflow.UnitStatus.NotStarted →
        final.uploadAccessKey = eksworkflow.UnitStatus.Completed ∧
        final.createCapacityGroup = eksworkflow.UnitStatus.Completed) := by
  induction events with
  | nil =>
    intro run final h hinv
    simp only [eksworkflow.ClusterRun.exec, Option.some.injEq] at h
    subst h
    exact hinv
  | cons ev evs ih =>
    intro run final h hinv
    simp only [eksworkflow.ClusterRun.exec] at h
    cases hstep : run.step ev with
    | none => simp [hstep] at h
    | some next =>
      simp only [hstep] at h
      exact ih next final h
        (eksworkflow.ClusterRun.step_keeps_bootstrap_after_both run next ev hstep hinv)

/-- C7: in every execution of the Cluster Workflow, whatever the interleaving of
its events, `Bootstrap` can only be started in a state in which both
`UploadAccessKey` and `CreateCapacityGroup` have completed, and in every state
in which `Bootstrap` has been started both have completed. -/
theorem C7_bootstrap_waits_for_both (events : List eksworkflow.ClusterEvent)
    (run : eksworkflow.ClusterRun)
    (hrun : eksworkflow.CreateClusterWorkflow events = some run) :
    ((run.step (eksworkflow.ClusterEvent.start eksworkflow.ClusterUnit.Bootstrap)).isSome = true →
      run.uploadAccessKey = eksworkflow.UnitStatus.Completed ∧
      run.createCapacityGroup = eksworkflow.UnitStatus.Completed) ∧
    (run.bootstrap ≠ eksworkflow.UnitStatus.NotStarted →
      run.uploadAccessKey = eksworkflow.UnitStatus.Completed ∧
      run.createCapacityGroup = eksworkflow.UnitStatus.Completed) := by
  constructor
  · intro hstart
    simp only [eksworkflow.ClusterRun.step] at hstart
    split at hstart
    · rename_i hguard
      have hready := hguard.2.2
      simp only [eksworkflow.ClusterRun.ready, Bool.and_eq_true, decide_eq_true_eq] at hready
      exact ⟨hready.1.1, hready.1.2⟩
    · simp at hstart
  · exact eksworkflow.ClusterRun.exec_keeps_bootstrap_after_both events _ run hrun
      (fun h => absurd rfl h)

/-- Witness of C7: an execution in which `CreateCapacityGroup` finishes before
`UploadAccessKey`; `Bootstrap` can be started at its end, and both steps have
completed there. -/
theorem C7_bootstrap_waits_for_both_witness :
    eksworkflow.CreateClusterWorkflow sampleClusterEvents = some sampleClusterRun ∧
    (sampleClusterRun.step
      (eksworkflow.ClusterEvent.start eksworkflow.ClusterUnit.Bootstrap)).isSome = true ∧
    sampleClusterRun.uploadAccessKey = eksworkflow.UnitStatus.Completed ∧
    sampleClusterRun.createCapacityGroup = eksworkflow.UnitStatus.Completed :=
  ⟨by decide, by decide,
    (C7_bootstrap_waits_for_both sampleClusterEvents sampleClusterRun (by decide)).1 (by decide)⟩

/-! ## Claims about `releaser_service.go` -/

/-- C8: for every chart, `isChartInstallable` returns `(true, nil)` exactly when
the type of the chart is empty or `"application"`; for every other type it
returns `false` with the error made by `Errorf`; the pair is never `true` with
an error nor `false` without one. -/
theorem C8_only_application_charts_installable (ch : chart.Chart) :
    (helmadapter.isChartInstallable ch = (true, none) ↔
      (ch.Metadata.Type_ = "" ∨ ch.Metadata.Type_ = "application")) ∧
    (helmadapter.isChartInstallable ch =
        (false, some (error.msg (ch.Metadata.Type_ ++ " charts are not installable"))) ↔
      ¬ (ch.Metadata.Type_ = "" ∨ ch.Metadata.Type_ = "application")) ∧
    ((helmadapter.isChartInstallable ch).1 = true ↔ (helmadapter.isChartInstallable ch).2 = none) ∧
    ((helmadapter.isChartInstallable ch).1 = false ↔
      (helmadapter.isChartInstallable ch).2 ≠ none) := by
  unfold helmadapter.isChartInstallable
  by_cases h : ch.Metadata.Type_ = "" ∨ ch.Metadata.Type_ = "application"
  · simp [h]
  · simp [h, errors.Errorf]

/-! ## Traces of `Install` -/

theorem St.call_trace {W α : Type} (s : St W) (ev : Event) (f : W → α × W) :
    (s.call ev f).2.trace = s.trace ++ [ev] := rfl

theorem helmadapter.releaser.getActionConfiguration_trace {W : Type} (x : External W)
    (clientGetter : helmadapter.customGetter) (ns : String) (s : St W) :
    (helmadapter.releaser.getActionConfiguration x clientGetter ns s).2.trace =
      s.trace ++ [Event.ConfigurationInit ns] := by
  simp only [helmadapter.releaser.getActionConfiguration]
  split <;> rename_i h <;> rw [← St.call_trace s _ (x.ConfigurationInit clientGetter ns ""), h]

theorem helmadapter.releaser.Install.dependencies_upgradeRuns {W : Type} (x : External W)
    (installAction : action.Install) (envSettings : cli.EnvSettings) (cp : String)
    (p : getter.Providers) (chartRequested : chart.Chart) (s : St W) :
    (helmadapter.releaser.Install.dependencies x installAction envSettings cp p chartRequested
        s).2.trace.filter Event.isUpgradeRun = s.trace.filter Event.isUpgradeRun := by
  unfold helmadapter.releaser.Install.dependencies
  simp only []
  repeat' split
  all_goals simp only [Prod.ext_iff] at *
  all_goals casesm* _ ∧ _
  all_goals subst_vars
  all_goals simp [St.call_trace, List.filter_append, Event.isUpgradeRun]

theorem helmadapter.releaser.Install.releaseNamespace_upgradeRuns {W : Type} (x : External W)
    (kubeConfig : helm.KubeConfigBytes) (installAction : action.Install) (s : St W) :
    (helmadapter.releaser.Install.releaseNamespace x kubeConfig installAction s).2.trace.filter
        Event.isUpgradeRun = s.trace.filter Event.isUpgradeRun := by
  unfold helmadapter.releaser.Install.releaseNamespace
  simp only []
  repeat' split
  all_goals simp only [Prod.ext_iff] at *
  all_goals casesm* _ ∧ _
  all_goals subst_vars
  all_goals simp [St.call_trace, List.filter_append, Event.isUpgradeRun]

/-- The method `Install` never runs the upgrade action. -/
theorem helmadapter.releaser.Install_upgradeRuns {W : Type} (x : External W)
    (helmEnv : helm.HelmEnv) (kubeConfig : helm.KubeConfigBytes) (releaseInput : helm.Release)
    (options : helm.Options) (s : St W) :
    (helmadapter.releaser.Install x helmEnv kubeConfig releaseInput options s).2.trace.filter
        Event.isUpgradeRun = s.trace.filter Event.isUpgradeRun := by
  unfold helmadapter.releaser.Install
  simp only []
  repeat' split
  all_goals simp only [Prod.ext_iff] at *
  all_goals casesm* _ ∧ _
  all_goals subst_vars
  all_goals simp [St.call_trace, helmadapter.releaser.getActionConfiguration_trace,
    helmadapter.releaser.Install.dependencies_upgradeRuns,
    helmadapter.releaser.Install.releaseNamespace_upgradeRuns,
    List.filter_append, Event.isUpgradeRun]

theorem helmadapter.releaser.upgradeAction_Install {W : Type} (x : External W)
    (actionConfig : action.Configuration) (releaseInput : helm.Release)
    (options : helm.Options) :
    (helmadapter.releaser.upgradeAction x actionConfig releaseInput options).Install =
      options.Install := by
  unfold helmadapter.releaser.upgradeAction
  simp only []
  split <;> rfl

/-- C9: with `options.Install` set, the configuration initialised, the chart
located and a history lookup that fails with `err`: if `err` is
`ErrReleaseNotFound`, `Upgrade` ends in the state in which `Install`, called with
the same arguments after the lookup, ends, returns the release name and `nil`
when `Install` does, an empty name and the annotated error when `Install` fails,
and adds no run of the upgrade action to the trace; for any other `err`,
`Upgrade` returns an empty name and the annotated error right after the lookup,
having made only the three calls up to the lookup. -/
theorem C9_upgrade_installs_missing_release {W : Type} (x : External W)
    (helmEnv : helm.HelmEnv) (kubeConfig : helm.KubeConfigBytes) (releaseInput : helm.Release)
    (options : helm.Options) (s s1 s2 s3 : St W) (actionConfig : action.Configuration)
    (chartPath : String) (err : error)
    (hinstall : options.Install = true)
    (hconfig : helmadapter.releaser.getActionConfiguration x
        (helmadapter.NewCustomGetter (helmadapter.releaser.ns options) kubeConfig
          helmEnv.GetCacheDir)
        (helmadapter.releaser.ns options) s = (Except.ok actionConfig, s1))
    (hlocate : s1.call (Event.LocateChart releaseInput.ChartName)
        (x.LocateChart
          (helmadapter.releaser.upgradeAction x actionConfig releaseInput options).ChartPathOptions
          releaseInput.ChartName (helmadapter.releaser.processEnvSettings x helmEnv)) =
        (Except.ok chartPath, s2))
    (hhistory : s2.call (Event.HistoryRun releaseInput.ReleaseName)
        (x.HistoryRun (helmadapter.releaser.histClient actionConfig) releaseInput.ReleaseName) =
        (some err, s3)) :
    (err = error.ErrReleaseNotFound →
      (helmadapter.releaser.Upgrade x helmEnv kubeConfig releaseInput options s).2 =
        (helmadapter.releaser.Install x helmEnv kubeConfig releaseInput options s3).2 ∧
      (∀ rel, (helmadapter.releaser.Install x helmEnv kubeConfig releaseInput options s3).1 =
          (rel, none) →
        (helmadapter.releaser.Upgrade x helmEnv kubeConfig releaseInput options s).1 =
          (rel, none)) ∧
      (∀ rel e, (helmadapter.releaser.Install x helmEnv kubeConfig releaseInput options s3).1 =
          (rel, some e) →
        (helmadapter.releaser.Upgrade x helmEnv kubeConfig releaseInput options s).1 =
          ("", some (error.wrapped e "failed to install release during upgrade"))) ∧
      (helmadapter.releaser.Upgrade x helmEnv kubeConfig releaseInput options s).2.trace.filter
          Event.isUpgradeRun = s.trace.filter Event.isUpgradeRun) ∧
    (err ≠ error.ErrReleaseNotFound →
      helmadapter.releaser.Upgrade x helmEnv kubeConfig releaseInput options s =
        (("", some (error.wrapped err "failed to install release during upgrade")), s3) ∧
      s3.trace = s.trace ++
        [ Event.ConfigurationInit (helmadapter.releaser.ns options),
          Event.LocateChart releaseInput.ChartName,
          Event.HistoryRun releaseInput.ReleaseName ]) := by
  have htrace1 : s1.trace = s.trace ++ [Event.ConfigurationInit (helmadapter.releaser.ns options)] := by
    rw [← helmadapter.releaser.getActionConfiguration_trace x
      (helmadapter.NewCustomGetter (helmadapter.releaser.ns options) kubeConfig
        helmEnv.GetCacheDir) (helmadapter.releaser.ns options) s, hconfig]
  have htrace2 : s2.trace = s1.trace ++ [Event.LocateChart releaseInput.ChartName] := by
    rw [← St.call_trace s1 _ (x.LocateChart
      (helmadapter.releaser.upgradeAction x actionConfig releaseInput options).ChartPathOptions
      releaseInput.ChartName (helmadapter.releaser.processEnvSettings x helmEnv)), hlocate]
  have htrace3 : s3.trace = s2.trace ++ [Event.HistoryRun releaseInput.ReleaseName] := by
    rw [← St.call_trace s2 _ (x.HistoryRun (helmadapter.releaser.histClient actionConfig)
      releaseInput.ReleaseName), hhistory]
  have hupgrade : helmadapter.releaser.Upgrade x helmEnv kubeConfig releaseInput options s =
      if err = error.ErrReleaseNotFound then
        match helmadapter.releaser.Install x helmEnv kubeConfig releaseInput options s3 with
        | ((_, some err), s) =>
          (("", errors.WrapIf (some err) "failed to install release during upgrade"), s)
        | ((rel, none), s) => ((rel, none), s)
      else
        (("", errors.WrapIf (some err) "failed to install release during upgrade"), s3) := by
    unfold helmadapter.releaser.Upgrade
    simp only [hconfig, hlocate, helmadapter.releaser.upgradeAction_Install, hinstall, hhistory,
      if_true]
  constructor
  · intro hnotfound
    rw [hupgrade, if_pos hnotfound]
    have hruns := helmadapter.releaser.Install_upgradeRuns x helmEnv kubeConfig releaseInput
      options s3
    rcases hres : helmadapter.releaser.Install x helmEnv kubeConfig releaseInput options s3 with
      ⟨⟨rel, e⟩, s4⟩
    rw [hres] at hruns
    cases e with
    | none =>
      refine ⟨rfl, fun _ h => h, fun _ _ h => ?_, ?_⟩
      · simp at h
      · show List.filter Event.isUpgradeRun s4.trace = _
        rw [hruns, htrace3, htrace2, htrace1]
        simp [List.filter_append, Event.isUpgradeRun]
    | some e =>
      refine ⟨rfl, fun _ h => ?_, fun _ _ h => ?_, ?_⟩
      · simp at h
      · simp only [Prod.mk.injEq, Option.some.injEq] at h
        rw [← h.2]
        rfl
      · show List.filter Event.isUpgradeRun s4.trace = _
        rw [hruns, htrace3, htrace2, htrace1]
        simp [List.filter_append, Event.isUpgradeRun]
  · intro hother
    rw [hupgrade, if_neg hother]
    refine ⟨rfl, ?_⟩
    rw [htrace3, htrace2, htrace1]
    simp

/-- Witness of C9: in the sample world the release `demo` has no history, and
`Upgrade` with `Install` set returns the name `demo` that `Install` returns,
without a run of the upgrade action. -/
theorem C9_upgrade_installs_missing_release_witness :
    (sampleOptions.Install = true ∧
      helmadapter.releaser.getActionConfiguration sampleExternal
          (helmadapter.NewCustomGetter "default" [] "/cache") "default" sampleState =
        (Except.ok
          { clientGetter := helmadapter.NewCustomGetter "default" [] "/cache", ns := "default",
            helmDriver := "" },
          { world := (), trace := [Event.ConfigurationInit "default"] })) ∧
    (helmadapter.releaser.Install sampleExternal sampleHelmEnv [] sampleRelease sampleOptions
        { world := (),
          trace := [Event.ConfigurationInit "default", Event.LocateChart "stable/demo",
            Event.HistoryRun "demo"] }).1 = ("demo", none) ∧
    (helmadapter.releaser.Upgrade sampleExternal sampleHelmEnv [] sampleRelease sampleOptions
        sampleState).1 = ("demo", none) ∧
    (helmadapter.releaser.Upgrade sampleExternal sampleHelmEnv [] sampleRelease sampleOptions
        sampleState).2.trace.filter Event.isUpgradeRun = [] :=
  have h := (C9_upgrade_installs_missing_release sampleExternal sampleHelmEnv [] sampleRelease
    sampleOptions sampleState
    { world := (), trace := [Event.ConfigurationInit "default"] }
    { world := (), trace := [Event.ConfigurationInit "default", Event.LocateChart "stable/demo"] }
    { world := (),
      trace := [Event.ConfigurationInit "default", Event.LocateChart "stable/demo",
        Event.HistoryRun "demo"] }
    { clientGetter := helmadapter.NewCustomGetter "default" [] "/cache", ns := "default",
      helmDriver := "" }
    "/cache/stable/demo" error.ErrReleaseNotFound rfl rfl rfl rfl).1 rfl
  ⟨⟨rfl, rfl⟩, rfl, h.2.1 "demo" rfl, h.2.2.2⟩

/-! ## `filterReleases` -/

/-- The inner loop of `filterReleases` over namespaces without repetition
appends the release once if its namespace is among them, and nothing
otherwise. -/
theorem helmadapter.releaseDeleter.filterReleases_inner_nodup (release : helm.Release)
    (namespaces : List String) (hnodup : namespaces.Nodup) (filtered : List helm.Release) :
    namespaces.foldl
        (fun filtered ns => if release.Namespace = ns then filtered ++ [release] else filtered)
        filtered =
      filtered ++ (if release.Namespace ∈ namespaces then [release] else []) := by
  induction namespaces generalizing filtered with
  | nil => simp
  | cons ns rest ih =>
    obtain ⟨hnotin, hrest⟩ := List.nodup_cons.mp hnodup
    rw [List.foldl_cons, ih hrest]
    by_cases h : release.Namespace = ns
    · have hnot : release.Namespace ∉ rest := h ▸ hnotin
      simp [h, hnot]
      intro hmem
      exact absurd hmem hnotin
    · simp [h]

/-- For namespaces without repetition `filterReleases` is the filter by
membership of the namespace. -/
theorem helmadapter.releaseDeleter.filterReleases_eq_filter_of_nodup
    (releases : List helm.Release) (namespaces : List String) (hne : namespaces ≠ [])
    (hnodup : namespaces.Nodup) :
    helmadapter.releaseDeleter.filterReleases releases namespaces =
      releases.filter (fun release => decide (release.Namespace ∈ namespaces)) := by
  have houter : ∀ (rs filtered : List helm.Release),
      rs.foldl
          (fun filtered release =>
            namespaces.foldl
              (fun filtered ns =>
                if release.Namespace = ns then filtered ++ [release] else filtered)
              filtered)
          filtered =
        filtered ++ rs.filter (fun release => decide (release.Namespace ∈ namespaces)) := by
    intro rs
    induction rs with
    | nil => simp
    | cons r rest ih =>
      intro filtered
      rw [List.foldl_cons,
        helmadapter.releaseDeleter.filterReleases_inner_nodup r namespaces hnodup, ih]
      by_cases h : r.Namespace ∈ namespaces <;> simp [h, List.filter_cons]
  unfold helmadapter.releaseDeleter.filterReleases
  split
  · rename_i h
    rcases h with h | h
    · exact absurd (List.length_eq_zero.mp h) hne
    · rw [List.length_eq_zero.mp h]
      rfl
  · rw [houter]
    simp

/-- C10: the claim fails on the code.  For the one release `demo`, which is in
the namespace `default`, and the namespaces `default, default`, both lists
non-empty, `filterReleases` returns the release twice, while the input filtered
by membership of the namespace holds it once. -/
theorem C10_filterReleases_repeats_release_for_repeated_namespace :
    helmadapter.releaseDeleter.filterReleases [sampleRelease] ["default", "default"] =
      [sampleRelease, sampleRelease] ∧
    [sampleRelease].filter (fun release => decide (release.Namespace ∈ ["default", "default"])) =
      [sampleRelease] ∧
    helmadapter.releaseDeleter.filterReleases [sampleRelease] ["default", "default"] ≠
      [sampleRelease].filter
        (fun release => decide (release.Namespace ∈ ["default", "default"])) := by
  refine ⟨by decide, by decide, by decide⟩

/-- C11: `filterReleases` applies no filter when none is given: with an empty list
of namespaces the result is the input list, whatever the releases; with an
empty list of releases the result is empty, whatever the namespaces. -/
theorem C11_filterReleases_without_filter (releases : List helm.Release)
    (namespaces : List String) :
    helmadapter.releaseDeleter.filterReleases releases [] = releases ∧
    helmadapter.releaseDeleter.filterReleases [] namespaces = [] := by
  constructor <;> simp [helmadapter.releaseDeleter.filterReleases]

/-! ## `Install` and charts that are not installable -/

/-- C12: when `Install` has initialised the configuration, named and located
the chart and loaded a chart whose type is neither empty nor `"application"`,
it returns an empty release name and the annotated error of
`isChartInstallable` in the state right after the load: the calls it made are
the initialisation, the location and the load, none of which lists or creates
a namespace or runs the install action. -/
theorem C12_install_rejects_non_installable_chart {W : Type} (x : External W)
    (helmEnv : helm.HelmEnv) (kubeConfig : helm.KubeConfigBytes) (releaseInput : helm.Release)
    (options : helm.Options) (s s1 s2 s3 : St W) (actionConfig : action.Configuration)
    (name chartRef cp : String) (ch : chart.Chart)
    (hconfig : helmadapter.releaser.getActionConfiguration x
        (helmadapter.NewCustomGetter (helmadapter.releaser.ns options) kubeConfig
          helmEnv.GetCacheDir)
        (helmadapter.releaser.ns options) s = (Except.ok actionConfig, s1))
    (hname : x.NameAndChart (helmadapter.releaser.Install.namedAction x actionConfig options)
        (x.NameAndChartSlice releaseInput) = Except.ok (name, chartRef))
    (hlocate : s1.call (Event.LocateChart chartRef)
        (x.LocateChart (helmadapter.releaser.Install.chartPathOptions x actionConfig releaseInput)
          chartRef (helmadapter.releaser.processEnvSettings x helmEnv)) = (Except.ok cp, s2))
    (hload : s2.call (Event.Load cp) (x.Load cp) = (Except.ok ch, s3))
    (htype : ch.Metadata.Type_ ≠ "" ∧ ch.Metadata.Type_ ≠ "application") :
    helmadapter.releaser.Install x helmEnv kubeConfig releaseInput options s =
      (("", some (error.wrapped
          (error.msg (ch.Metadata.Type_ ++ " charts are not installable"))
          "chart is not installable")), s3) ∧
    (helmadapter.releaser.Install x helmEnv kubeConfig releaseInput options s).1.1 = "" ∧
    (helmadapter.releaser.Install x helmEnv kubeConfig releaseInput options s).1.2 ≠ none ∧
    (helmadapter.releaser.Install x helmEnv kubeConfig releaseInput options s).2.trace =
      s.trace ++ [ Event.ConfigurationInit (helmadapter.releaser.ns options),
        Event.LocateChart chartRef, Event.Load cp ] ∧
    (helmadapter.releaser.Install x helmEnv kubeConfig releaseInput options s).2.trace.filter
        Event.isNamespaceOrInstallRun = s.trace.filter Event.isNamespaceOrInstallRun := by
  have htrace1 :
      s1.trace = s.trace ++ [Event.ConfigurationInit (helmadapter.releaser.ns options)] := by
    rw [← helmadapter.releaser.getActionConfiguration_trace x
      (helmadapter.NewCustomGetter (helmadapter.releaser.ns options) kubeConfig
        helmEnv.GetCacheDir) (helmadapter.releaser.ns options) s, hconfig]
  have htrace2 : s2.trace = s1.trace ++ [Event.LocateChart chartRef] := by
    rw [← St.call_trace s1 _ (x.LocateChart
      (helmadapter.releaser.Install.chartPathOptions x actionConfig releaseInput) chartRef
      (helmadapter.releaser.processEnvSettings x helmEnv)), hlocate]
  have htrace3 : s3.trace = s2.trace ++ [Event.Load cp] := by
    rw [← St.call_trace s2 _ (x.Load cp), hload]
  have hnot : helmadapter.isChartInstallable ch =
      (false, some (error.msg (ch.Metadata.Type_ ++ " charts are not installable"))) := by
    simp [helmadapter.isChartInstallable, htype.1, htype.2, errors.Errorf]
  have hinstall : helmadapter.releaser.Install x helmEnv kubeConfig releaseInput options s =
      (("", some (error.wrapped
          (error.msg (ch.Metadata.Type_ ++ " charts are not installable"))
          "chart is not installable")), s3) := by
    simp only [helmadapter.releaser.Install.namedAction] at hname
    simp only [helmadapter.releaser.Install.chartPathOptions] at hlocate
    unfold helmadapter.releaser.Install
    simp only [hconfig, hname, hlocate, hload, hnot, errors.WrapIf]
  rw [hinstall]
  refine ⟨rfl, rfl, by simp, ?_, ?_⟩
  · rw [htrace3, htrace2, htrace1]
    simp
  · show List.filter Event.isNamespaceOrInstallRun s3.trace = _
    rw [htrace3, htrace2, htrace1]
    simp [List.filter_append, Event.isNamespaceOrInstallRun]

/-- Witness of C12: in the sample world whose loader yields a library chart,
`Install` of the release `demo` returns an empty name and an error after the
three calls up to the load. -/
theorem C12_install_rejects_non_installable_chart_witness :
    (sampleLibraryChart.Metadata.Type_ ≠ "" ∧
      sampleLibraryChart.Metadata.Type_ ≠ "application") ∧
    helmadapter.releaser.Install sampleLibraryExternal sampleHelmEnv [] sampleRelease
        sampleOptions sampleState =
      (("", some (error.wrapped (error.msg "library charts are not installable")
          "chart is not installable")),
        { world := (),
          trace := [Event.ConfigurationInit "default", Event.LocateChart "stable/demo",
            Event.Load "/cache/stable/demo"] }) ∧
    (helmadapter.releaser.Install sampleLibraryExternal sampleHelmEnv [] sampleRelease
        sampleOptions sampleState).2.trace.filter Event.isNamespaceOrInstallRun = [] :=
  have h := C12_install_rejects_non_installable_chart sampleLibraryExternal sampleHelmEnv []
    sampleRelease sampleOptions sampleState
    { world := (), trace := [Event.ConfigurationInit "default"] }
    { world := (), trace := [Event.ConfigurationInit "default", Event.LocateChart "stable/demo"] }
    { world := (),
      trace := [Event.ConfigurationInit "default", Event.LocateChart "stable/demo",
        Event.Load "/cache/stable/demo"] }
    { clientGetter := helmadapter.NewCustomGetter "default" [] "/cache", ns := "default",
      helmDriver := "" }
    "demo" "stable/demo" "/cache/stable/demo" sampleLibraryChart rfl rfl rfl rfl
    ⟨by decide, by decide⟩
  ⟨⟨by decide, by decide⟩, h.1, h.2.2.2.2⟩

/-! ## `BeforeDelete` -/

theorem gorm.DB.deleteEach_append {V W : Type} (l1 l2 : List (V × String)) (db : gorm.DB V W) :
    gorm.DB.deleteEach (l1 ++ l2) db =
      match gorm.DB.deleteEach l1 db with
      | (some e, db) => (some e, db)
      | (none, db) => gorm.DB.deleteEach l2 db := by
  induction l1 generalizing db with
  | nil => simp [gorm.DB.deleteEach]
  | cons st rest ih =>
    obtain ⟨value, message⟩ := st
    simp only [List.cons_append, gorm.DB.deleteEach]
    rcases hdel : db.Delete value with ⟨e, db2⟩
    cases e with
    | none => exact ih db2
    | some e => simp [emperror.WrapWith]

theorem banzaicloud.EC2BanzaiCloudClusterModel.BeforeDelete.hosts_eq_deleteEach {W : Type}
    (nodePools : List banzaicloud.NodePool) (db : gorm.DB banzaicloud.Value W) :
    banzaicloud.EC2BanzaiCloudClusterModel.BeforeDelete.hosts nodePools db =
      gorm.DB.deleteEach
        (nodePools.map
          (fun np => (banzaicloud.Value.Hosts np.Hosts, "failed to delete nodepool hosts")))
        db := by
  induction nodePools generalizing db with
  | nil => rfl
  | cons np rest ih =>
    simp only [banzaicloud.EC2BanzaiCloudClusterModel.BeforeDelete.hosts, List.map_cons,
      gorm.DB.deleteEach]
    rcases hdel : db.Delete (banzaicloud.Value.Hosts np.Hosts) with ⟨e, db2⟩
    cases e with
    | none => simp only [ih]
    | some e => rfl

/-- The method `BeforeDelete` issues the deletes of `deleteSteps` one after the
other and stops at the first error. -/
theorem banzaicloud.EC2BanzaiCloudClusterModel.BeforeDelete_eq_deleteEach {W : Type}
    (m : banzaicloud.EC2BanzaiCloudClusterModel) (db : gorm.DB banzaicloud.Value W) :
    banzaicloud.EC2BanzaiCloudClusterModel.BeforeDelete m db =
      gorm.DB.deleteEach (banzaicloud.deleteSteps m) db := by
  simp only [banzaicloud.EC2BanzaiCloudClusterModel.BeforeDelete, banzaicloud.deleteSteps,
    gorm.DB.deleteEach, gorm.DB.deleteEach_append,
    banzaicloud.EC2BanzaiCloudClusterModel.BeforeDelete.hosts_eq_deleteEach]
  repeat' split
  all_goals simp_all [emperror.WrapWith]

theorem gorm.DB.Delete_log {V W : Type} (db : gorm.DB V W) (value : V) :
    (db.Delete value).2.log = db.log ++ [(value, (db.Delete value).1)] := rfl

/-- What a sequence of deletes leaves behind: either every delete succeeded, in
order, and the result is `nil`; or the deletes before the first failing one
succeeded, the failing one is the last delete issued, and the result is its
error, annotated. -/
theorem gorm.DB.deleteEach_spec {V W : Type} (steps : List (V × String)) (db : gorm.DB V W) :
    ((gorm.DB.deleteEach steps db).1 = none ∧
      (gorm.DB.deleteEach steps db).2.log =
        db.log ++ steps.map (fun st => (st.1, (none : Option error)))) ∨
    (∃ before st after e, steps = before ++ st :: after ∧
      (gorm.DB.deleteEach steps db).1 = some (error.wrapped e st.2) ∧
      (gorm.DB.deleteEach steps db).2.log =
        db.log ++ (before.map (fun st => (st.1, (none : Option error))) ++ [(st.1, some e)])) := by
  induction steps generalizing db with
  | nil => left; simp [gorm.DB.deleteEach]
  | cons st rest ih =>
    obtain ⟨value, message⟩ := st
    simp only [gorm.DB.deleteEach]
    have hlog := gorm.DB.Delete_log db value
    rcases hdel : db.Delete value with ⟨e, db2⟩
    rw [hdel] at hlog
    cases e with
    | some e =>
      right
      exact ⟨[], (value, message), rest, e, rfl, rfl, by simpa using hlog⟩
    | none =>
      simp only []
      simp only at hlog
      rcases ih db2 with ⟨h1, h2⟩ | ⟨before, st, after, e, hsteps, h1, h2⟩
      · left
        refine ⟨h1, ?_⟩
        rw [h2, hlog]
        simp
      · right
        refine ⟨(value, message) :: before, st, after, e, ?_, h1, ?_⟩
        · rw [hsteps]
          rfl
        · rw [h2, hlog]
          simp

theorem banzaicloud.deleteSteps_values (m : banzaicloud.EC2BanzaiCloudClusterModel) :
    (banzaicloud.deleteSteps m).map Prod.fst = banzaicloud.deleteOrder m := by
  simp [banzaicloud.deleteSteps, banzaicloud.deleteOrder, Function.comp_def]

/-- C13: `BeforeDelete` issues its deletes in the order network, CRI, the hosts
of each node pool in node-pool order, node pools, KubeADM, Kubernetes.  Either
every one of them succeeded and the method returns `nil`, or the deletes before
the first failing one succeeded, the failing one is the last delete issued and
the method returns an error; the method returns `nil` exactly when the log
shows every delete of the order as succeeded; and the hosts of every node pool
come before the node pools in the order. -/
theorem C13_BeforeDelete_deletes_in_order_until_first_failure {W : Type}
    (m : banzaicloud.EC2BanzaiCloudClusterModel) (db : gorm.DB banzaicloud.Value W) :
    banzaicloud.deleteOrder m =
      banzaicloud.Value.Network m.Network :: banzaicloud.Value.CRI m.CRI ::
        (m.NodePools.map (fun np => banzaicloud.Value.Hosts np.Hosts) ++
          [ banzaicloud.Value.NodePools m.NodePools, banzaicloud.Value.KubeADM m.KubeADM,
            banzaicloud.Value.Kubernetes m.Kubernetes ]) ∧
    (((banzaicloud.EC2BanzaiCloudClusterModel.BeforeDelete m db).1 = none ∧
        (banzaicloud.EC2BanzaiCloudClusterModel.BeforeDelete m db).2.log =
          db.log ++ (banzaicloud.deleteOrder m).map (fun v => (v, (none : Option error)))) ∨
      (∃ before v after e message, banzaicloud.deleteOrder m = before ++ v :: after ∧
        (banzaicloud.EC2BanzaiCloudClusterModel.BeforeDelete m db).1 =
          some (error.wrapped e message) ∧
        (banzaicloud.EC2BanzaiCloudClusterModel.BeforeDelete m db).2.log =
          db.log ++ (before.map (fun v => (v, (none : Option error))) ++ [(v, some e)]))) ∧
    ((banzaicloud.EC2BanzaiCloudClusterModel.BeforeDelete m db).1 = none ↔
      (banzaicloud.EC2BanzaiCloudClusterModel.BeforeDelete m db).2.log =
        db.log ++ (banzaicloud.deleteOrder m).map (fun v => (v, (none : Option error)))) ∧
    (∀ np ∈ m.NodePools, ∃ l1 l2,
      banzaicloud.deleteOrder m = l1 ++ banzaicloud.Value.Hosts np.Hosts :: l2 ∧
      banzaicloud.Value.NodePools m.NodePools ∈ l2) := by
  have hcases :
      ((banzaicloud.EC2BanzaiCloudClusterModel.BeforeDelete m db).1 = none ∧
        (banzaicloud.EC2BanzaiCloudClusterModel.BeforeDelete m db).2.log =
          db.log ++ (banzaicloud.deleteOrder m).map (fun v => (v, (none : Option error)))) ∨
      (∃ before v after e message, banzaicloud.deleteOrder m = before ++ v :: after ∧
        (banzaicloud.EC2BanzaiCloudClusterModel.BeforeDelete m db).1 =
          some (error.wrapped e message) ∧
        (banzaicloud.EC2BanzaiCloudClusterModel.BeforeDelete m db).2.log =
          db.log ++ (before.map (fun v => (v, (none : Option error))) ++ [(v, some e)])) := by
    rw [banzaicloud.EC2BanzaiCloudClusterModel.BeforeDelete_eq_deleteEach]
    rcases gorm.DB.deleteEach_spec (banzaicloud.deleteSteps m) db with
      ⟨h1, h2⟩ | ⟨before, st, after, e, hsteps, h1, h2⟩
    · left
      refine ⟨h1, ?_⟩
      rw [h2, ← banzaicloud.deleteSteps_values m, List.map_map]
      rfl
    · right
      refine ⟨before.map Prod.fst, st.1, after.map Prod.fst, e, st.2, ?_, h1, ?_⟩
      · rw [← banzaicloud.deleteSteps_values m, hsteps]
        simp
      · rw [h2, List.map_map]
        rfl
  refine ⟨rfl, hcases, ?_, ?_⟩
  · constructor
    · intro hnil
      rcases hcases with ⟨_, h2⟩ | ⟨_, _, _, _, _, _, h1, _⟩
      · exact h2
      · rw [hnil] at h1
        cases h1
    · intro hlog
      rcases hcases with ⟨h1, _⟩ | ⟨before, v, after, e, message, _, _, h2⟩
      · exact h1
      · rw [hlog] at h2
        have hmem : (v, some e) ∈
            (banzaicloud.deleteOrder m).map (fun v => (v, (none : Option error))) := by
          rw [List.append_cancel_left h2]
          simp
        simp at hmem
  · intro np hnp
    obtain ⟨pre, post, hsplit⟩ := List.append_of_mem hnp
    refine ⟨banzaicloud.Value.Network m.Network :: banzaicloud.Value.CRI m.CRI ::
        pre.map (fun np => banzaicloud.Value.Hosts np.Hosts),
      post.map (fun np => banzaicloud.Value.Hosts np.Hosts) ++
        [ banzaicloud.Value.NodePools m.NodePools, banzaicloud.Value.KubeADM m.KubeADM,
          banzaicloud.Value.Kubernetes m.Kubernetes ], ?_, by simp⟩
    rw [banzaicloud.deleteOrder]
    nth_rewrite 1 [hsplit]
    simp

/-- Witness of C13: for the sample cluster model and a database in which the
delete of the hosts of the second node pool fails, `BeforeDelete` returns the
annotated error after the deletes of the network, the CRI and the hosts of both
node pools, and issues no delete of the node pools, KubeADM or Kubernetes. -/
theorem C13_BeforeDelete_deletes_in_order_until_first_failure_witness :
    (banzaicloud.EC2BanzaiCloudClusterModel.BeforeDelete sampleClusterModel sampleFailingDB).1 =
      some (error.wrapped (error.msg "connection reset") "failed to delete nodepool hosts") ∧
    (banzaicloud.EC2BanzaiCloudClusterModel.BeforeDelete sampleClusterModel
        sampleFailingDB).2.log.map Prod.fst =
      [ banzaicloud.Value.Network { ID := 11 }, banzaicloud.Value.CRI { ID := 14 },
        banzaicloud.Value.Hosts [{ ID := 21, Name := "host-a" }],
        banzaicloud.Value.Hosts [{ ID := 22, Name := "host-b" }] ] ∧
    ((banzaicloud.EC2BanzaiCloudClusterModel.BeforeDelete sampleClusterModel
        sampleFailingDB).1 = none ↔
      (banzaicloud.EC2BanzaiCloudClusterModel.BeforeDelete sampleClusterModel
          sampleFailingDB).2.log =
        sampleFailingDB.log ++
          (banzaicloud.deleteOrder sampleClusterModel).map
            (fun v => (v, (none : Option error)))) :=
  ⟨by decide, by decide,
    (C13_BeforeDelete_deletes_in_order_until_first_failure sampleClusterModel
      sampleFailingDB).2.2.1⟩
